import Mathlib

/-!
Verification of the hepatica-p three-stage liver-fibrosis risk engine.

Shallow embedding of the core services:
  * `backend/app/services/stage1.py`   (clinical triage: FIB-4, APRI, tier, probability)
  * `backend/app/services/stage3.py`   (fusion engine, alert lifecycle, thresholds)
  * `backend/app/services/fibrosis_inference.py` (stage 2 softmax and result flags)
  * `backend/app/services/stiffness_proxy.py`    (stiffness proxy estimator)

Python floats are modelled as exact rationals wherever the source computes with
rational arithmetic, and as real numbers where the source applies transcendental
functions (sqrt, exp).  Python round(x, n) is modelled as round-to-nearest on the
exact value (Mathlib round, ties upward); no theorem below depends on tie
behaviour of concrete inputs.  Fallible code is modelled with Except.  Database
rows are modelled as records, a result set as a list in table order.
-/

namespace Hepatica

/-- Model of Python round(x, n) applied to a real value, returning the exact
rational result. -/
noncomputable def roundR (n : ℕ) (x : ℝ) : ℚ :=
  (round (x * 10 ^ n) : ℤ) / 10 ^ n

/-- Model of Python round(x, n) on a rational value (computable). -/
def roundQ (n : ℕ) (x : ℚ) : ℚ :=
  (round (x * 10 ^ n) : ℤ) / 10 ^ n

theorem roundR_ratCast (n : ℕ) (q : ℚ) : roundR n ((q : ℝ)) = roundQ n q := by
  unfold roundR roundQ
  rw [show ((q : ℝ) * 10 ^ n) = ((q * 10 ^ n : ℚ) : ℝ) by push_cast; ring,
    Rat.round_cast]

theorem round_le_round {α : Type*} [LinearOrderedField α] [FloorRing α]
    {x y : α} (h : x ≤ y) : round x ≤ round y := by
  rw [round_eq, round_eq]
  exact Int.floor_le_floor (by linarith)

/-- Python _clamp(value, low, high) = max(low, min(high, value)) on reals. -/
noncomputable def clampR (value low high : ℝ) : ℝ := max low (min high value)

/-- Python _clamp on rationals (computable). -/
def clampQ (value low high : ℚ) : ℚ := max low (min high value)

/-! ## Stage 1 — clinical triage engine (services/stage1.py) -/

inductive RiskTier
  | LOW
  | MODERATE
  | HIGH
deriving DecidableEq

/-- Value returned by compute_fib4 on the non-error path:
(age * ast) / (platelets * sqrt(alt)). -/
noncomputable def fib4Value (age : ℤ) (ast platelets alt : ℚ) : ℝ :=
  ((age : ℝ) * (ast : ℝ)) / ((platelets : ℝ) * Real.sqrt (alt : ℝ))

/-- compute_fib4: raises ValueError when alt <= 0 or platelets <= 0. -/
noncomputable def compute_fib4 (age : ℤ) (ast platelets alt : ℚ) :
    Except String ℝ :=
  if alt ≤ 0 ∨ platelets ≤ 0 then
    .error "ALT and platelets must be greater than 0"
  else
    .ok (fib4Value age ast platelets alt)

/-- Value returned by compute_apri on the non-error path:
((ast / ast_uln) * 100) / platelets. -/
def apriValue (ast ast_uln platelets : ℚ) : ℚ :=
  ast / ast_uln * 100 / platelets

/-- compute_apri: raises ValueError when ast_uln <= 0 or platelets <= 0. -/
def compute_apri (ast ast_uln platelets : ℚ) : Except String ℚ :=
  if ast_uln ≤ 0 ∨ platelets ≤ 0 then
    .error "AST_ULN and platelets must be greater than 0"
  else
    .ok (apriValue ast ast_uln platelets)

/-- map_risk_tier from stage1.py (HIGH branch evaluated first). -/
def map_risk_tier (fib4 apri : ℚ) : RiskTier :=
  if 2.67 < fib4 ∨ 1 ≤ apri then .HIGH
  else if (1.3 ≤ fib4 ∧ fib4 ≤ 2.67) ∨ (0.5 ≤ apri ∧ apri < 1) then .MODERATE
  else .LOW

/-- map_probability from stage1.py. -/
def map_probability (tier : RiskTier) (bmi : ℚ) (type2dm : Bool) : ℚ :=
  let base : ℚ :=
    match tier with
    | .LOW => 0.20
    | .MODERATE => 0.55
    | .HIGH => 0.82
  let base := if 30 ≤ bmi ∧ type2dm = true then base + 0.05 else base
  min base 0.95

structure Stage1Result where
  fib4 : ℚ
  apri : ℚ
  risk_tier : RiskTier
  probability : ℚ
  model_version : String
deriving DecidableEq

/-- run_stage1 from stage1.py: computes FIB-4 and APRI, rounds each to four
decimal places, then derives tier and probability from the rounded values. -/
noncomputable def run_stage1 (age : ℤ) (ast alt platelets ast_uln bmi : ℚ)
    (type2dm : Bool) : Except String Stage1Result :=
  match compute_fib4 age ast platelets alt with
  | .error e => .error e
  | .ok f =>
    match compute_apri ast ast_uln platelets with
    | .error e => .error e
    | .ok a =>
      let fib4 := roundR 4 f
      let apri := roundQ 4 a
      let tier := map_risk_tier fib4 apri
      .ok ⟨fib4, apri, tier, roundQ 4 (map_probability tier bmi type2dm),
        "clinical-rule-engine:v1"⟩

/-! ### Claim C5 -/

/-- Claim C5: compute_fib4 returns (age * AST) / (platelets * sqrt ALT) whenever
ALT > 0 and platelets > 0, raising a domain error exactly when ALT <= 0 or
platelets <= 0; compute_apri returns ((AST / AST_ULN) * 100) / platelets with
the analogous error condition; and the two named concrete evaluations round to
3.7869 and 1.3333 at four decimal places. -/
theorem stage1_formula_spec (age : ℤ) (ast platelets alt ast_uln : ℚ) :
    (0 < alt → 0 < platelets →
      compute_fib4 age ast platelets alt =
        .ok (((age : ℝ) * (ast : ℝ)) / ((platelets : ℝ) * Real.sqrt (alt : ℝ))))
    ∧ (alt ≤ 0 ∨ platelets ≤ 0 →
      compute_fib4 age ast platelets alt =
        .error "ALT and platelets must be greater than 0")
    ∧ (0 < ast_uln → 0 < platelets →
      compute_apri ast ast_uln platelets = .ok (ast / ast_uln * 100 / platelets))
    ∧ (ast_uln ≤ 0 ∨ platelets ≤ 0 →
      compute_apri ast ast_uln platelets =
        .error "AST_ULN and platelets must be greater than 0")
    ∧ roundR 4 (fib4Value 55 80 150 60) = 3.7869
    ∧ roundQ 4 (apriValue 80 40 150) = 1.3333 := by
  refine ⟨?_, ?_, ?_, ?_, ?_, ?_⟩
  · intro h1 h2
    rw [compute_fib4, if_neg (by push_neg; exact ⟨h1, h2⟩)]
    rfl
  · intro h
    rw [compute_fib4, if_pos h]
  · intro h1 h2
    rw [compute_apri, if_neg (by push_neg; exact ⟨h1, h2⟩)]
    rfl
  · intro h
    rw [compute_apri, if_pos h]
  · -- sqrt 60 lies strictly between 7.745966 and 7.745967
    have hlo : (7.745966 : ℝ) < Real.sqrt 60 :=
      (Real.lt_sqrt (by norm_num)).2 (by norm_num)
    have hhi : Real.sqrt 60 < 7.745967 :=
      (Real.sqrt_lt' (by norm_num)).2 (by norm_num)
    have hpos : (0 : ℝ) < Real.sqrt 60 := lt_trans (by norm_num) hlo
    have hval : fib4Value 55 80 150 60 * 10 ^ 4 =
        44000000 / (150 * Real.sqrt 60) := by
      unfold fib4Value
      push_cast
      field_simp
      ring
    have hb1 : (37868.5 : ℝ) ≤ fib4Value 55 80 150 60 * 10 ^ 4 := by
      rw [hval, le_div_iff (by positivity)]
      nlinarith
    have hb2 : fib4Value 55 80 150 60 * 10 ^ 4 < 37869.5 := by
      rw [hval, div_lt_iff (by positivity)]
      nlinarith
    have hround : round (fib4Value 55 80 150 60 * 10 ^ 4) = 37869 := by
      rw [round_eq, Int.floor_eq_iff]
      constructor
      · push_cast; linarith
      · push_cast; linarith
    unfold roundR
    rw [hround]
    norm_num
  · unfold apriValue roundQ
    norm_num [round_eq]

/-- Witness for C5 at the concrete inputs named by the specification. -/
theorem stage1_formula_spec_witness :
    compute_fib4 55 80 150 60 =
      .ok (((55 : ℤ) : ℝ) * ((80 : ℚ) : ℝ) /
        (((150 : ℚ) : ℝ) * Real.sqrt ((60 : ℚ) : ℝ)))
    ∧ compute_apri 80 40 150 = .ok ((80 : ℚ) / 40 * 100 / 150) := by
  have h := stage1_formula_spec 55 80 150 60 40
  exact ⟨h.1 (by norm_num) (by norm_num), h.2.2.1 (by norm_num) (by norm_num)⟩

/-! ### Claim C6 -/

/-- Claim C6: the Stage 1 tier mapping returns HIGH iff fib4 > 2.67 or
apri >= 1.0; otherwise MODERATE iff 1.3 <= fib4 <= 2.67 or 0.5 <= apri < 1.0;
otherwise LOW — with the four boundary examples from the specification. -/
theorem stage1_tier_mapping_spec (f a : ℚ) :
    (map_risk_tier f a = .HIGH ↔ 2.67 < f ∨ 1 ≤ a)
    ∧ (map_risk_tier f a = .MODERATE ↔
        (¬(2.67 < f ∨ 1 ≤ a) ∧ ((1.3 ≤ f ∧ f ≤ 2.67) ∨ (0.5 ≤ a ∧ a < 1))))
    ∧ (map_risk_tier f a = .LOW ↔
        (¬(2.67 < f ∨ 1 ≤ a) ∧ ¬((1.3 ≤ f ∧ f ≤ 2.67) ∨ (0.5 ≤ a ∧ a < 1))))
    ∧ map_risk_tier 2.68 0.2 = .HIGH
    ∧ map_risk_tier 1.5 0.4 = .MODERATE
    ∧ map_risk_tier 1.2 0.4 = .LOW
    ∧ map_risk_tier 1 0.6 = .MODERATE := by
  refine ⟨?_, ?_, ?_, by norm_num [map_risk_tier], by norm_num [map_risk_tier],
    by norm_num [map_risk_tier], by norm_num [map_risk_tier]⟩ <;>
    · unfold map_risk_tier
      split_ifs with h1 h2 <;> simp_all

/-! ### Claim C10 -/

/-- Claim C10: run_stage1 derives the tier from the values rounded to four
decimal places, and for every input whose exact FIB-4 lies strictly between
2.67 and 2.67005 while the exact APRI is below 0.5, the returned tier is
MODERATE (the rounded FIB-4 equals 2.67 and no HIGH condition fires). -/
theorem run_stage1_rounds_before_tier (age : ℤ)
    (ast alt platelets ast_uln bmi : ℚ) (dm : Bool)
    (halt : 0 < alt) (hpl : 0 < platelets) (huln : 0 < ast_uln) :
    (run_stage1 age ast alt platelets ast_uln bmi dm).map Stage1Result.risk_tier
      = .ok (map_risk_tier (roundR 4 (fib4Value age ast platelets alt))
          (roundQ 4 (apriValue ast ast_uln platelets)))
    ∧ (2.67 < fib4Value age ast platelets alt →
        fib4Value age ast platelets alt < 2.67005 →
        apriValue ast ast_uln platelets < 0.5 →
        (run_stage1 age ast alt platelets ast_uln bmi dm).map
          Stage1Result.risk_tier = .ok .MODERATE) := by
  have hrun : run_stage1 age ast alt platelets ast_uln bmi dm =
      .ok ⟨roundR 4 (fib4Value age ast platelets alt),
        roundQ 4 (apriValue ast ast_uln platelets),
        map_risk_tier (roundR 4 (fib4Value age ast platelets alt))
          (roundQ 4 (apriValue ast ast_uln platelets)),
        roundQ 4 (map_probability
          (map_risk_tier (roundR 4 (fib4Value age ast platelets alt))
            (roundQ 4 (apriValue ast ast_uln platelets))) bmi dm),
        "clinical-rule-engine:v1"⟩ := by
    rw [run_stage1, compute_fib4, if_neg (by push_neg; exact ⟨halt, hpl⟩),
      compute_apri, if_neg (by push_neg; exact ⟨huln, hpl⟩)]
  constructor
  · rw [hrun]; rfl
  · intro hgt hlt hapri
    have hfr : roundR 4 (fib4Value age ast platelets alt) = 2.67 := by
      have hround : round (fib4Value age ast platelets alt * 10 ^ 4) = 26700 := by
        rw [round_eq, Int.floor_eq_iff]
        constructor
        · push_cast; nlinarith
        · push_cast; nlinarith
      unfold roundR
      rw [hround]
      norm_num
    have har : roundQ 4 (apriValue ast ast_uln platelets) < 1 := by
      have hle : roundQ 4 (apriValue ast ast_uln platelets) ≤ 0.5 := by
        unfold roundQ
        rw [div_le_iff (by norm_num)]
        have := round_le_round
          (show apriValue ast ast_uln platelets * 10 ^ 4 ≤ 5000 by nlinarith)
        calc ((round (apriValue ast ast_uln platelets * 10 ^ 4) : ℤ) : ℚ)
            ≤ ((round (5000 : ℚ) : ℤ) : ℚ) := by exact_mod_cast this
          _ = 5000 := by norm_num
          _ = 0.5 * 10 ^ 4 := by norm_num
      linarith
    rw [hrun]
    simp only [Except.map]
    rw [hfr, map_risk_tier, if_neg (by push_neg; exact ⟨by norm_num, har⟩),
      if_pos (Or.inl ⟨by norm_num, by norm_num⟩)]

/-- Witness for C10: age 1, AST 534.001, ALT 4, platelets 100, AST_ULN 2000.
The exact FIB-4 is 2.670005, strictly inside (2.67, 2.67005); the exact APRI is
0.2670005 < 0.5; the returned tier is MODERATE. -/
theorem run_stage1_rounds_before_tier_witness :
    (run_stage1 1 (534001/1000) 4 100 2000 25 false).map Stage1Result.risk_tier
      = .ok .MODERATE := by
  have hsqrt : Real.sqrt ((4 : ℚ) : ℝ) = 2 := by
    rw [show (((4 : ℚ) : ℝ)) = 2 ^ 2 by norm_num]
    exact Real.sqrt_sq (by norm_num)
  have hval : fib4Value 1 (534001/1000) 100 4 = 534001 / 200000 := by
    unfold fib4Value
    rw [hsqrt]
    push_cast
    norm_num
  exact (run_stage1_rounds_before_tier 1 (534001/1000) 4 100 2000 25 false
    (by norm_num) (by norm_num) (by norm_num)).2
    (by rw [hval]; norm_num) (by rw [hval]; norm_num)
    (by unfold apriValue; norm_num)

/-! ## Stage 2 — imaging classifier runtime (services/fibrosis_inference.py)

The five class indices 0..4 stand for fibrosis stages F0..F4.  The map from an
input image to logits (the EfficientNet forward pass in ml mode, the
hand-engineered radiomics scorer in heuristic mode) is taken as a parameter:
every property below is proved for all logits vectors, hence for whatever
logits either path produces on any image. -/

inductive ConfidenceFlag
  | NORMAL
  | LOW_CONFIDENCE
deriving DecidableEq

inductive EscalationFlag
  | NONE
  | SEVERE_STAGE_REVIEW
deriving DecidableEq

inductive InferenceMode
  | ml
  | heuristic
deriving DecidableEq

/-- np.max over the five logits. -/
noncomputable def maxLogit (l : Fin 5 → ℝ) : ℝ :=
  max (l 0) (max (l 1) (max (l 2) (max (l 3) (l 4))))

/-- FibrosisModelRuntime._softmax: subtract the max, exponentiate, normalise. -/
noncomputable def softmax (l : Fin 5 → ℝ) : Fin 5 → ℝ := fun i =>
  Real.exp (l i - maxLogit l) / ∑ j, Real.exp (l j - maxLogit l)

/-- The probs_map of predict: temperature-scaled softmax, each entry rounded
to six decimal places. -/
noncomputable def stage2_probs (temperature : ℝ) (logits : Fin 5 → ℝ) :
    Fin 5 → ℚ := fun i =>
  roundR 6 (softmax (fun j => logits j / max temperature 1e-3) i)

/-- Largest value of the rounded probability map (the top-1 probability after
the stable descending sort in predict). -/
def top1Val (m : Fin 5 → ℚ) : ℚ :=
  max (m 0) (max (m 1) (max (m 2) (max (m 3) (m 4))))

/-- First index attaining the maximum (head of the stable descending sort). -/
def top1Idx (m : Fin 5 → ℚ) : Fin 5 :=
  if m 0 = top1Val m then 0
  else if m 1 = top1Val m then 1
  else if m 2 = top1Val m then 2
  else if m 3 = top1Val m then 3
  else 4

structure Stage2Result where
  probs : Fin 5 → ℚ
  top1 : Fin 5 × ℚ
  confidence_flag : ConfidenceFlag
  escalation_flag : EscalationFlag
  model_version : String
  inference_mode : InferenceMode

/-- Result assembly of FibrosisModelRuntime.predict after the logits have been
produced (temperature scaling, softmax, rounding, flags, version suffix). -/
noncomputable def stage2_predict_result (mode : InferenceMode) (base : String)
    (temperature : ℝ) (logits : Fin 5 → ℝ) : Stage2Result :=
  let probsMap := stage2_probs temperature logits
  let t1v := top1Val probsMap
  let t1i := top1Idx probsMap
  let confidence :=
    if mode = .heuristic then ConfidenceFlag.LOW_CONFIDENCE
    else if t1v < 0.6 then ConfidenceFlag.LOW_CONFIDENCE
    else ConfidenceFlag.NORMAL
  let escalation :=
    if (t1i = 3 ∨ t1i = 4) ∧ 0.65 ≤ t1v then EscalationFlag.SEVERE_STAGE_REVIEW
    else EscalationFlag.NONE
  { probs := probsMap
    top1 := (t1i, t1v)
    confidence_flag := confidence
    escalation_flag := escalation
    model_version := if mode = .ml then base else base ++ "::heuristic"
    inference_mode := mode }

/-- FibrosisModelRuntime.predict branch selection: a loadable model yields ml
mode; otherwise the heuristic path runs only when fallback is allowed. -/
noncomputable def stage2_predict (modelLogits : Option (Fin 5 → ℝ))
    (heuristicLogits : Fin 5 → ℝ) (allowHeuristicFallback : Bool)
    (base : String) (temperature : ℝ) : Except String Stage2Result :=
  match modelLogits with
  | some lg => .ok (stage2_predict_result .ml base temperature lg)
  | none =>
    if allowHeuristicFallback = false then
      .error "Stage 2 ML model is unavailable and heuristic fallback is disabled"
    else
      .ok (stage2_predict_result .heuristic base temperature heuristicLogits)

/-! ### Claim C7 -/

/-- Claim C7: heuristic-mode predictions always carry
confidence_flag = LOW_CONFIDENCE and a model version suffixed ::heuristic;
ml-mode predictions carry LOW_CONFIDENCE exactly when the top-1 probability is
below 0.60 and keep the base model version unchanged (no suffix). -/
theorem stage2_confidence_and_version_spec (base : String) (temperature : ℝ)
    (mlLogits heurLogits : Fin 5 → ℝ) (allow : Bool) :
    stage2_predict none heurLogits true base temperature =
      .ok (stage2_predict_result .heuristic base temperature heurLogits)
    ∧ (stage2_predict_result .heuristic base temperature heurLogits).confidence_flag
        = .LOW_CONFIDENCE
    ∧ (stage2_predict_result .heuristic base temperature heurLogits).model_version
        = base ++ "::heuristic"
    ∧ stage2_predict (some mlLogits) heurLogits allow base temperature =
      .ok (stage2_predict_result .ml base temperature mlLogits)
    ∧ ((stage2_predict_result .ml base temperature mlLogits).confidence_flag
        = .LOW_CONFIDENCE ↔
        (stage2_predict_result .ml base temperature mlLogits).top1.2 < 0.6)
    ∧ (stage2_predict_result .ml base temperature mlLogits).model_version = base := by
  refine ⟨rfl, rfl, rfl, rfl, ?_, rfl⟩
  unfold stage2_predict_result
  by_cases h : top1Val (stage2_probs temperature mlLogits) < 0.6 <;> simp [h]

/-! ### Claim C8 -/

theorem softmax_sum_one (l : Fin 5 → ℝ) : ∑ i, softmax l i = 1 := by
  unfold softmax
  rw [← Finset.sum_div]
  exact div_self (ne_of_gt (Finset.sum_pos (fun i _ => Real.exp_pos _)
    Finset.univ_nonempty))

/-- Claim C8 (amended): the five rounded softmax entries sum to 1 within 2e-6
(not 1e-6 as claimed), in every mode and for every logits vector. -/
theorem stage2_softmax_rounded_sum (mode : InferenceMode) (base : String)
    (temperature : ℝ) (logits : Fin 5 → ℝ) :
    |(∑ i, (stage2_predict_result mode base temperature logits).probs i) - 1|
      ≤ 2 / 10 ^ 6 := by
  have hprobs : (stage2_predict_result mode base temperature logits).probs =
      stage2_probs temperature logits := rfl
  rw [hprobs]
  set s : Fin 5 → ℝ :=
    softmax (fun j => logits j / max temperature 1e-3) with hs
  have hsum : ∑ i, s i = 1 := softmax_sum_one _
  set r : Fin 5 → ℤ := fun i => round (s i * 10 ^ 6) with hr
  have hprob_eq : ∀ i, stage2_probs temperature logits i = (r i : ℚ) / 10 ^ 6 :=
    fun i => rfl
  -- each rounding error is at most one half (of a millionth)
  have herr : ∀ i, |((r i : ℝ)) - s i * 10 ^ 6| ≤ 1 / 2 := by
    intro i
    rw [abs_sub_comm]
    exact abs_sub_round _
  -- the integer deviation of the rounded sum from 10^6 is at most 2
  set d : ℤ := (∑ i, r i) - 10 ^ 6 with hd
  have hcast : ((d : ℝ)) = (∑ i, ((r i : ℝ))) - 10 ^ 6 := by
    push_cast [hd]
    ring
  have hdev : |((d : ℝ))| ≤ 5 / 2 := by
    have hsum6 : ∑ i, s i * 10 ^ 6 = 10 ^ 6 := by
      rw [← Finset.sum_mul, hsum, one_mul]
    have : ((d : ℝ)) = ∑ i, (((r i : ℝ)) - s i * 10 ^ 6) := by
      rw [hcast, Finset.sum_sub_distrib, hsum6]
    rw [this]
    calc |∑ i, (((r i : ℝ)) - s i * 10 ^ 6)|
        ≤ ∑ i, |((r i : ℝ)) - s i * 10 ^ 6| := Finset.abs_sum_le_sum_abs _ _
      _ ≤ ∑ _i : Fin 5, ((1 : ℝ) / 2) := Finset.sum_le_sum (fun i _ => herr i)
      _ = 5 / 2 := by simp; norm_num
  have hdint : |d| ≤ 2 := by
    have h3 : |((d : ℝ))| < 3 := lt_of_le_of_lt hdev (by norm_num)
    have : ((|d| : ℤ) : ℝ) < 3 := by
      rw [show ((|d| : ℤ) : ℝ) = |((d : ℝ))| by push_cast; rfl]
      exact h3
    have : |d| < 3 := by exact_mod_cast this
    omega
  -- convert back to the rational sum
  have hq : (∑ i, stage2_probs temperature logits i) - 1 = (d : ℚ) / 10 ^ 6 := by
    have : ∑ i, stage2_probs temperature logits i =
        ((∑ i, r i : ℤ) : ℚ) / 10 ^ 6 := by
      simp only [hprob_eq]
      rw [← Finset.sum_div]
      push_cast
      ring_nf
    rw [this, hd]
    push_cast
    ring
  rw [hq, abs_div, abs_of_pos (show (0:ℚ) < 10 ^ 6 by norm_num),
    div_le_div_iff (by norm_num) (by norm_num)]
  have : ((|d| : ℤ) : ℚ) ≤ 2 := by exact_mod_cast hdint
  rw [show ((|d| : ℤ) : ℚ) = |(d : ℚ)| by push_cast; rfl] at this
  nlinarith

/-- Probability vector witnessing that the 1e-6 tolerance of C8 is too tight:
four entries of 0.0000006 and one of 0.9999976 (exact sum 1).  Each small entry
rounds up to 0.000001 and the large one rounds up to 0.999998, so the rounded
entries sum to 1.000002. -/
def scex : Fin 5 → ℚ := fun i => if (i : ℕ) < 4 then 6 / 10 ^ 7 else 9999976 / 10 ^ 7

/-- Logits realising scex as the exact softmax output (any image whose logits
equal the componentwise log of scex produces it). -/
noncomputable def logitsex : Fin 5 → ℝ := fun i => Real.log ((scex i : ℝ))

theorem softmax_logitsex (i : Fin 5) : softmax logitsex i = ((scex i : ℝ)) := by
  have hpos : ∀ j : Fin 5, (0 : ℝ) < ((scex j : ℝ)) := by
    intro j
    have : (0 : ℚ) < scex j := by unfold scex; split <;> norm_num
    exact_mod_cast this
  have hle4 : ∀ j : Fin 5, logitsex j ≤ logitsex 4 := by
    intro j
    exact Real.log_le_log (hpos j) (by
      have h4 : scex 4 = 9999976 / 10 ^ 7 := rfl
      have : scex j ≤ scex 4 := by rw [h4]; unfold scex; split <;> norm_num
      exact_mod_cast this)
  have hmax : maxLogit logitsex = logitsex 4 := by
    unfold maxLogit
    rw [max_eq_right (hle4 3), max_eq_right (hle4 2), max_eq_right (hle4 1),
      max_eq_right (hle4 0)]
  have hexp : ∀ j : Fin 5, Real.exp (logitsex j - maxLogit logitsex) =
      ((scex j : ℝ)) / ((scex 4 : ℝ)) := by
    intro j
    rw [hmax, logitsex, logitsex, Real.exp_sub, Real.exp_log (hpos j),
      Real.exp_log (hpos 4)]
  have hsumq : ((scex 0 : ℝ)) + ((scex 1 : ℝ)) + ((scex 2 : ℝ)) + ((scex 3 : ℝ))
      + ((scex 4 : ℝ)) = 1 := by
    have : scex 0 + scex 1 + scex 2 + scex 3 + scex 4 = 1 := by
      rw [show scex 0 = 6 / 10 ^ 7 from rfl, show scex 1 = 6 / 10 ^ 7 from rfl,
        show scex 2 = 6 / 10 ^ 7 from rfl, show scex 3 = 6 / 10 ^ 7 from rfl,
        show scex 4 = 9999976 / 10 ^ 7 from rfl]
      norm_num
    exact_mod_cast this
  have h4 : ((scex 4 : ℝ)) ≠ 0 := ne_of_gt (hpos 4)
  unfold softmax
  rw [hexp i, Fin.sum_univ_five, hexp 0, hexp 1, hexp 2, hexp 3, hexp 4]
  rw [div_add_div_same, div_add_div_same, div_add_div_same, div_add_div_same,
    hsumq]
  field_simp

/-- Counterexample to C8 as stated: at the logits logitsex (ml mode, base
version, temperature 1) the rounded softmax entries sum to 1.000002, which
exceeds the claimed 1e-6 tolerance. -/
theorem stage2_softmax_sum_counterexample :
    ¬ (|(∑ i, (stage2_predict_result .ml "fibrosis-efficientnet-b3:v1" 1
        logitsex).probs i) - 1| ≤ 1 / 10 ^ 6) := by
  have hscaled : (fun j => logitsex j / max (1 : ℝ) 1e-3) = logitsex := by
    funext j
    rw [max_eq_left (by norm_num), div_one]
  have hprobs : (stage2_predict_result .ml "fibrosis-efficientnet-b3:v1" 1
      logitsex).probs = fun i => roundQ 6 (scex i) := by
    funext i
    show stage2_probs 1 logitsex i = roundQ 6 (scex i)
    rw [stage2_probs, hscaled, softmax_logitsex, roundR_ratCast]
  rw [hprobs, Fin.sum_univ_five]
  have hsmall : roundQ 6 (6 / 10 ^ 7) = 1 / 10 ^ 6 := by
    unfold roundQ
    rw [round_eq]
    norm_num
  have hbig : roundQ 6 (9999976 / 10 ^ 7) = 999998 / 10 ^ 6 := by
    unfold roundQ
    rw [round_eq]
    norm_num
  rw [show scex 0 = 6 / 10 ^ 7 from rfl, show scex 1 = 6 / 10 ^ 7 from rfl,
    show scex 2 = 6 / 10 ^ 7 from rfl, show scex 3 = 6 / 10 ^ 7 from rfl,
    show scex 4 = 9999976 / 10 ^ 7 from rfl, hsmall, hbig]
  norm_num
  rw [abs_of_pos (show (0 : ℚ) < 1 / 500000 by norm_num)]
  norm_num

/-! ## Stage 3 — fusion engine and alert lifecycle (services/stage3.py)

Database rows are modelled as records carrying the fields stage3.py reads; a
result set is a list in table order (db.scalar returns its first match).  The
loaded fusion-model artifact is modelled by its outcome on the feature frame of
the current run.  The ranked positive/negative contribution lists of the
explanation payload are not modelled (no claim mentions them). -/

inductive Stage3RiskTier
  | LOW
  | MODERATE
  | HIGH
  | CRITICAL
deriving DecidableEq

structure ClinicalRow where
  age : ℤ
  bmi : ℚ
  fib4 : ℚ
  apri : ℚ
  ast : ℚ
  alt : ℚ
  platelets : ℚ
  type2dm : Bool
deriving DecidableEq

/-- quality_is_valid models the is_valid key of the quality_metrics JSON dict
(none = key absent; the code reads it with .get("is_valid", True)). -/
structure FibrosisRow where
  top1_stage : String
  top1_probability : ℚ
  quality_is_valid : Option Bool
deriving DecidableEq

/-- The only field of a previous Stage3Assessment the fusion computation
reads. -/
structure Stage3Row where
  composite_risk_score : ℚ
deriving DecidableEq

/-- The stage-3 settings read by stage3.py. -/
structure Settings where
  stage3_enabled : Bool
  stage3_stiffness_proxy_enabled : Bool
  stage3_alert_ppv_target : ℚ
  stage3_alert_recall_floor : ℚ
deriving DecidableEq

noncomputable def sigmoid (x : ℝ) : ℝ := 1 / (1 + Real.exp (-x))

/-- _nfs_proxy from stage3.py (rational arithmetic; ast_alt uses
max(alt, 1e-4)). -/
def nfs_proxy (age : ℤ) (bmi : ℚ) (type2dm : Bool) (ast alt platelets albumin : ℚ) :
    ℚ :=
  -1.675 + 0.037 * age + 0.094 * bmi + 1.13 * (if type2dm then 1 else 0)
    + 0.99 * (ast / max alt 1e-4) - 0.013 * platelets - 0.66 * albumin

/-- _bard_score from stage3.py. -/
def bard_score (bmi ast alt : ℚ) (type2dm : Bool) : ℤ :=
  (if 28 ≤ bmi then 1 else 0) + (if 0.8 ≤ ast / max alt 1e-4 then 2 else 0)
    + (if type2dm then 1 else 0)

/-- Python str.upper, written as a map over the character list (extensionally
String.toUpper, but reducible by the kernel). -/
def upperStr (s : String) : String := ⟨s.data.map Char.toUpper⟩

/-- _stage_numeric from stage3.py: defaults to 1.5 for an unknown stage. -/
def stage_numeric (top_stage : Option String) : ℚ :=
  let s := upperStr (top_stage.getD "")
  if s = "F0" then 0
  else if s = "F1" then 1
  else if s = "F2" then 2
  else if s = "F3" then 3
  else if s = "F4" then 4
  else 1.5

/-- _risk_tier_from_score from stage3.py. -/
def risk_tier_from_score (score : ℚ) : Stage3RiskTier :=
  if 0.82 ≤ score then .CRITICAL
  else if 0.62 ≤ score then .HIGH
  else if 0.35 ≤ score then .MODERATE
  else .LOW

/-- _alert_threshold_for_ppv_target from stage3.py. -/
def alert_threshold_for_ppv_target (ppv_target : ℚ) : ℚ :=
  if 0.9 ≤ ppv_target then 0.78
  else if 0.85 ≤ ppv_target then 0.7
  else 0.62

/-- Outcome of the loaded fusion-model artifact on the feature frame of the
current run: the positive-class predict_proba probability (or row maximum), or
the raw predict output.  A missing or unloadable artifact, or a prediction
failure, is modelled by passing none for the whole artifact. -/
inductive ArtifactOutput
  | proba (p : ℝ)
  | predictVal (v : ℝ)

/-- The probability p extracted in _predict_artifact_scores: predict_proba
values are used as returned, predict outputs are clamped to [0, 1]. -/
noncomputable def artifactP : ArtifactOutput → ℝ
  | .proba p => p
  | .predictVal v => clampR v 0 1

/-- _predict_artifact_scores from stage3.py (composite, progression, decomp,
model version). -/
noncomputable def predict_artifact_scores
    (artifact : Option (ArtifactOutput × String)) :
    Option (ℚ × ℚ × ℚ × String) :=
  match artifact with
  | none => none
  | some (out, ver) =>
    let p := artifactP out
    some (roundR 6 p,
      roundR 6 (clampR (0.92 * p + 0.03) 0 0.99),
      roundR 6 (clampR (0.72 * p + 0.05) 0 0.99),
      ver)

/-- The intermediate numeric features assembled at the top of _compute_stage3
(with the documented neutral defaults for absent inputs). -/
structure Stage3Features where
  age : ℤ
  bmi : ℚ
  fib4 : ℚ
  apri : ℚ
  ast : ℚ
  alt : ℚ
  platelets : ℚ
  type2dm : Bool
  albumin_proxy : ℚ
  stage_num : ℚ
  stage_prob : ℚ
  quality_valid : Bool
  nfs_score : ℚ
  bard : ℤ
  previous_score : ℚ
deriving DecidableEq

def stage3_features (clinical : Option ClinicalRow) (fibrosis : Option FibrosisRow)
    (previous : Option Stage3Row) : Stage3Features :=
  let age : ℤ := match clinical with | some c => c.age | none => 50
  let bmi : ℚ := match clinical with | some c => c.bmi | none => 28
  let fib4 : ℚ := match clinical with | some c => c.fib4 | none => 1.4
  let apri : ℚ := match clinical with | some c => c.apri | none => 0.6
  let ast : ℚ := match clinical with | some c => c.ast | none => 45
  let alt : ℚ := match clinical with | some c => c.alt | none => 40
  let platelets : ℚ := match clinical with | some c => c.platelets | none => 190
  let type2dm : Bool := match clinical with | some c => c.type2dm | none => false
  let albumin_proxy := clampQ (4.3 - 0.0025 * max (ast - 35) 0) 2 5.5
  { age := age
    bmi := bmi
    fib4 := fib4
    apri := apri
    ast := ast
    alt := alt
    platelets := platelets
    type2dm := type2dm
    albumin_proxy := albumin_proxy
    stage_num := stage_numeric (fibrosis.map (fun f => f.top1_stage))
    stage_prob := match fibrosis with | some f => f.top1_probability | none => 0.56
    quality_valid :=
      match fibrosis with
      | some f => f.quality_is_valid.getD true
      | none => true
    nfs_score := nfs_proxy age bmi type2dm ast alt platelets albumin_proxy
    bard := bard_score bmi ast alt type2dm
    previous_score := match previous with | some p => p.composite_risk_score | none => 0 }

def fib4_component (ft : Stage3Features) : ℚ := clampQ ((ft.fib4 - 1.1) / 3.5) 0 1

def apri_component (ft : Stage3Features) : ℚ := clampQ ((ft.apri - 0.35) / 1.6) 0 1

def stage_component (ft : Stage3Features) : ℚ :=
  clampQ (ft.stage_num / 4 * 0.7 + ft.stage_prob * 0.3) 0 1

def stiffness_component (stiffness_kpa : ℚ) : ℚ :=
  clampQ ((stiffness_kpa - 3) / 22) 0 1

noncomputable def nfs_component (ft : Stage3Features) : ℝ :=
  clampR (sigmoid ((ft.nfs_score : ℝ) / 2.5)) 0 1

def bard_component (ft : Stage3Features) : ℚ := clampQ ((ft.bard : ℚ) / 4) 0 1

def delta_component (ft : Stage3Features) : ℚ := clampQ (max ft.previous_score 0) 0 1

def quality_penalty (ft : Stage3Features) : ℚ := if ft.quality_valid then 0 else 0.08

/-- The weighted sum inside the heuristic composite (before clamping). -/
noncomputable def heuristic_sum (ft : Stage3Features) (stiffness_kpa : ℚ) : ℝ :=
  0.22 * (fib4_component ft : ℝ) + 0.14 * (apri_component ft : ℝ)
    + 0.22 * (stage_component ft : ℝ)
    + 0.23 * (stiffness_component stiffness_kpa : ℝ)
    + 0.10 * nfs_component ft + 0.05 * (bard_component ft : ℝ)
    + 0.04 * (delta_component ft : ℝ) - (quality_penalty ft : ℝ)

noncomputable def heuristic_score (ft : Stage3Features) (stiffness_kpa : ℚ) : ℝ :=
  clampR (heuristic_sum ft stiffness_kpa) 0 0.99

structure FeatureSnapshot where
  fib4 : ℚ
  apri : ℚ
  nfs_score : ℚ
  bard_score : ℤ
  stage_numeric : ℚ
  stage_probability : ℚ
  stiffness_kpa : ℚ
  stiffness_source : String
  quality_valid : Bool
  previous_composite_score : ℚ
  alert_score_threshold : ℚ
  alert_ppv_target : ℚ
  alert_recall_floor : ℚ
deriving DecidableEq

structure Stage3Computation where
  composite_risk_score : ℚ
  progression_risk_12m : ℚ
  decomp_risk_12m : ℚ
  risk_tier : Stage3RiskTier
  model_version : String
  feature_snapshot : FeatureSnapshot
deriving DecidableEq

/-- _compute_stage3 from stage3.py. -/
noncomputable def compute_stage3 (cfg : Settings) (clinical : Option ClinicalRow)
    (fibrosis : Option FibrosisRow) (stiffness_kpa : ℚ) (stiffness_source : String)
    (previous : Option Stage3Row) (artifact : Option (ArtifactOutput × String))
    (model_version_default : String) : Stage3Computation :=
  let ft := stage3_features clinical fibrosis previous
  let scores : ℚ × ℚ × ℚ × String :=
    match predict_artifact_scores artifact with
    | none =>
      let composite := roundR 6 (heuristic_score ft stiffness_kpa)
      (composite,
        roundQ 6 (clampQ (0.90 * composite + 0.05) 0 0.99),
        roundQ 6 (clampQ (0.74 * composite +
          (if 3 ≤ ft.stage_num then 0.06 else 0)) 0 0.99),
        model_version_default ++ "::heuristic")
    | some s => s
  { composite_risk_score := scores.1
    progression_risk_12m := scores.2.1
    decomp_risk_12m := scores.2.2.1
    risk_tier := risk_tier_from_score scores.1
    model_version := scores.2.2.2
    feature_snapshot :=
      { fib4 := roundQ 6 ft.fib4
        apri := roundQ 6 ft.apri
        nfs_score := roundQ 6 ft.nfs_score
        bard_score := ft.bard
        stage_numeric := roundQ 6 ft.stage_num
        stage_probability := roundQ 6 ft.stage_prob
        stiffness_kpa := roundQ 6 stiffness_kpa
        stiffness_source := stiffness_source
        quality_valid := ft.quality_valid
        previous_composite_score := roundQ 6 ft.previous_score
        alert_score_threshold :=
          alert_threshold_for_ppv_target cfg.stage3_alert_ppv_target
        alert_ppv_target := cfg.stage3_alert_ppv_target
        alert_recall_floor := cfg.stage3_alert_recall_floor } }

/-! ### Alert lifecycle (upsert_stage3_alerts) -/

structure RiskAlertRow where
  patient_id : String
  stage3_assessment_id : Option String
  created_by : Option String
  alert_type : String
  severity : String
  threshold : ℚ
  score : ℚ
  status : String
deriving DecidableEq

/-- The fields of the freshly stored Stage3Assessment that the alert upsert
reads. -/
structure AssessmentRow where
  id : String
  patient_id : String
  composite_risk_score : ℚ
  decomp_risk_12m : ℚ
  risk_tier : Stage3RiskTier
deriving DecidableEq

structure AlertCandidate where
  alert_type : String
  severity : String
  score : ℚ
deriving DecidableEq

/-- The candidate list built at the top of upsert_stage3_alerts, in program
order. -/
def alert_candidates (threshold : ℚ) (a : AssessmentRow) : List AlertCandidate :=
  (if threshold ≤ a.composite_risk_score ∧
      (a.risk_tier = .HIGH ∨ a.risk_tier = .CRITICAL) then
    [⟨"ADVANCED_FIBROSIS_RISK",
      if a.risk_tier = .CRITICAL then "critical" else "high",
      a.composite_risk_score⟩]
  else [])
  ++ (if threshold + 0.05 ≤ a.decomp_risk_12m then
    [⟨"DECOMPENSATION_RISK",
      if 0.8 ≤ a.decomp_risk_12m then "critical" else "high",
      a.decomp_risk_12m⟩]
  else [])

def isOpenFor (pid t : String) (r : RiskAlertRow) : Bool :=
  r.patient_id == pid && r.alert_type == t && r.status == "open"

/-- Replace the first open alert of the given patient and type in table order
(the row db.scalar returns), if any, by its image under f. -/
def updateFirstOpen (pid t : String) (f : RiskAlertRow → RiskAlertRow) :
    List RiskAlertRow → Option (List RiskAlertRow)
  | [] => none
  | r :: rest =>
    if isOpenFor pid t r then some (f r :: rest)
    else (updateFirstOpen pid t f rest).map (fun l => r :: l)

/-- The in-place mutation of an existing open alert: score, threshold,
source-assessment reference and severity are refreshed. -/
def applyUpdate (threshold : ℚ) (aid : String) (c : AlertCandidate)
    (r : RiskAlertRow) : RiskAlertRow :=
  { r with
    score := roundQ 6 c.score
    threshold := threshold
    stage3_assessment_id := some aid
    severity := c.severity }

def newAlertRow (threshold : ℚ) (aid pid : String) (created_by : Option String)
    (c : AlertCandidate) : RiskAlertRow :=
  { patient_id := pid
    stage3_assessment_id := some aid
    created_by := created_by
    alert_type := c.alert_type
    severity := c.severity
    threshold := threshold
    score := roundQ 6 c.score
    status := "open" }

/-- One iteration of the candidate loop; the state is (table rows, created
rows). -/
def upsertOne (threshold : ℚ) (aid pid : String) (created_by : Option String)
    (c : AlertCandidate) (st : List RiskAlertRow × List RiskAlertRow) :
    List RiskAlertRow × List RiskAlertRow :=
  match updateFirstOpen pid c.alert_type (applyUpdate threshold aid c) st.1 with
  | some l => (l, st.2)
  | none => (st.1 ++ [newAlertRow threshold aid pid created_by c],
      st.2 ++ [newAlertRow threshold aid pid created_by c])

/-- Alert upsert with an explicit operating threshold. -/
def upsert_alerts_with (threshold : ℚ) (a : AssessmentRow)
    (created_by : Option String) (alerts : List RiskAlertRow) :
    List RiskAlertRow × List RiskAlertRow :=
  (alert_candidates threshold a).foldl
    (fun st c => upsertOne threshold a.id a.patient_id created_by c st)
    (alerts, [])

/-- upsert_stage3_alerts from stage3.py: the threshold is derived from the
configured precision target. -/
def upsert_stage3_alerts (cfg : Settings) (a : AssessmentRow)
    (created_by : Option String) (alerts : List RiskAlertRow) :
    List RiskAlertRow × List RiskAlertRow :=
  upsert_alerts_with (alert_threshold_for_ppv_target cfg.stage3_alert_ppv_target)
    a created_by alerts

/-! ### Stiffness proxy (services/stiffness_proxy.py) -/

def stage_weight (top_stage : Option String) : ℚ :=
  let s := upperStr (top_stage.getD "")
  if s = "F0" then 0
  else if s = "F1" then 1.6
  else if s = "F2" then 3.8
  else if s = "F3" then 6.2
  else if s = "F4" then 8.4
  else 2

/-- estimate_stiffness_proxy: (estimated_kpa rounded to three decimals,
source string). -/
def estimate_stiffness_proxy (clinical : Option ClinicalRow)
    (fibrosis : Option FibrosisRow) : ℚ × String :=
  let fib4 : ℚ := match clinical with | some c => c.fib4 | none => 1.4
  let apri : ℚ := match clinical with | some c => c.apri | none => 0.6
  let sw := stage_weight (fibrosis.map (fun f => f.top1_stage))
  let stage_prob : ℚ := match fibrosis with | some f => f.top1_probability | none => 0.55
  let bmi : ℚ := match clinical with | some c => c.bmi | none => 27.5
  let t2 : ℚ := match clinical with
    | some c => if c.type2dm then 1 else 0
    | none => 0
  let raw := 4.8 + 1.9 * max (fib4 - 1) 0 + 2.3 * max (apri - 0.4) 0 + sw
    + 1.8 * stage_prob + 0.06 * max (bmi - 25) 0 + 0.9 * t2
  (roundQ 3 (max 2 (min 75 raw)), "PROXY")

/-! ### run_stage3_assessment -/

inductive Stage3Err
  | disabled
  | noInputs
  | noStiffness
deriving DecidableEq

/-- run_stage3_assessment from stage3.py, with the database reads resolved:
clinical, fibrosis, stiffness and previous hold what the selected-or-latest
queries return, alerts holds the patient rows of the risk_alerts table, and
model_version_default is the version string resolved from the registry.  The
error cases model the Stage3Error raises; on error no assessment, explanation
or alert is written. -/
noncomputable def run_stage3_assessment (cfg : Settings)
    (clinical : Option ClinicalRow) (fibrosis : Option FibrosisRow)
    (stiffness : Option (ℚ × String)) (previous : Option Stage3Row)
    (artifact : Option (ArtifactOutput × String)) (model_version_default : String)
    (patient_id assessment_id : String) (performed_by : Option String)
    (alerts : List RiskAlertRow) :
    Except Stage3Err (Stage3Computation × List RiskAlertRow × List RiskAlertRow) :=
  if cfg.stage3_enabled = false then .error .disabled
  else if clinical = none ∧ fibrosis = none then .error .noInputs
  else
    let stiffRow : Option (ℚ × String) :=
      match stiffness with
      | some s => some s
      | none =>
        if cfg.stage3_stiffness_proxy_enabled = false then none
        else some (estimate_stiffness_proxy clinical fibrosis)
    match stiffRow with
    | none => .error .noStiffness
    | some (kpa, src) =>
      let computed := compute_stage3 cfg clinical fibrosis kpa src previous
        artifact model_version_default
      let arow : AssessmentRow :=
        ⟨assessment_id, patient_id, computed.composite_risk_score,
          computed.decomp_risk_12m, computed.risk_tier⟩
      let res := upsert_stage3_alerts cfg arow performed_by alerts
      .ok (computed, res.1, res.2)

/-! ### Helper lemmas about clamping and rounding -/

theorem clampR_eq_self {x lo hi : ℝ} (h1 : lo ≤ x) (h2 : x ≤ hi) :
    clampR x lo hi = x := by
  unfold clampR
  rw [min_eq_right h2, max_eq_right h1]

theorem le_clampR (x lo hi : ℝ) : lo ≤ clampR x lo hi := le_max_left _ _

theorem clampR_le {x lo hi : ℝ} (h : lo ≤ hi) : clampR x lo hi ≤ hi :=
  max_le h (min_le_left _ _)

theorem clampQ_eq_self {x lo hi : ℚ} (h1 : lo ≤ x) (h2 : x ≤ hi) :
    clampQ x lo hi = x := by
  unfold clampQ
  rw [min_eq_right h2, max_eq_right h1]

theorem le_clampQ (x lo hi : ℚ) : lo ≤ clampQ x lo hi := le_max_left _ _

theorem clampQ_le {x lo hi : ℚ} (h : lo ≤ hi) : clampQ x lo hi ≤ hi :=
  max_le h (min_le_left _ _)

theorem roundR_le_roundR (n : ℕ) {x y : ℝ} (h : x ≤ y) :
    roundR n x ≤ roundR n y := by
  unfold roundR
  have h2 : round (x * 10 ^ n) ≤ round (y * 10 ^ n) :=
    round_le_round (mul_le_mul_of_nonneg_right h (by positivity))
  have h3 : ((round (x * 10 ^ n) : ℤ) : ℚ) ≤ ((round (y * 10 ^ n) : ℤ) : ℚ) := by
    exact_mod_cast h2
  gcongr

theorem roundQ_le_roundQ (n : ℕ) {x y : ℚ} (h : x ≤ y) :
    roundQ n x ≤ roundQ n y := by
  unfold roundQ
  have h2 : round (x * 10 ^ n) ≤ round (y * 10 ^ n) :=
    round_le_round (mul_le_mul_of_nonneg_right h (by positivity))
  have h3 : ((round (x * 10 ^ n) : ℤ) : ℚ) ≤ ((round (y * 10 ^ n) : ℤ) : ℚ) := by
    exact_mod_cast h2
  gcongr

theorem roundQ6_zero : roundQ 6 0 = 0 := by
  unfold roundQ
  rw [round_eq]
  norm_num

theorem roundQ6_one : roundQ 6 1 = 1 := by
  unfold roundQ
  rw [round_eq]
  norm_num

theorem roundQ6_99 : roundQ 6 0.99 = 0.99 := by
  unfold roundQ
  rw [round_eq]
  norm_num

/-- Rounding to six decimals keeps a real value between two rational bounds
that are themselves fixed by six-decimal rounding. -/
theorem roundR6_bounds {x : ℝ} {lo hi : ℚ} (hlo : roundQ 6 lo = lo)
    (hhi : roundQ 6 hi = hi) (h1 : ((lo : ℝ)) ≤ x) (h2 : x ≤ ((hi : ℝ))) :
    lo ≤ roundR 6 x ∧ roundR 6 x ≤ hi := by
  constructor
  · calc lo = roundQ 6 lo := hlo.symm
      _ = roundR 6 ((lo : ℝ)) := (roundR_ratCast 6 lo).symm
      _ ≤ roundR 6 x := roundR_le_roundR 6 h1
  · calc roundR 6 x ≤ roundR 6 ((hi : ℝ)) := roundR_le_roundR 6 h2
      _ = roundQ 6 hi := roundR_ratCast 6 hi
      _ = hi := hhi

theorem roundQ6_bounds {x lo hi : ℚ} (hlo : roundQ 6 lo = lo)
    (hhi : roundQ 6 hi = hi) (h1 : lo ≤ x) (h2 : x ≤ hi) :
    lo ≤ roundQ 6 x ∧ roundQ 6 x ≤ hi :=
  ⟨hlo ▸ roundQ_le_roundQ 6 h1, hhi ▸ roundQ_le_roundQ 6 h2⟩

/-! ### Projection equations for compute_stage3 -/

theorem compute_stage3_heuristic_eq (cfg : Settings) (clinical : Option ClinicalRow)
    (fibrosis : Option FibrosisRow) (kpa : ℚ) (src : String)
    (previous : Option Stage3Row) (ver : String) :
    (compute_stage3 cfg clinical fibrosis kpa src previous none ver).composite_risk_score
      = roundR 6 (heuristic_score (stage3_features clinical fibrosis previous) kpa)
    ∧ (compute_stage3 cfg clinical fibrosis kpa src previous none ver).progression_risk_12m
      = roundQ 6 (clampQ (0.90 *
          roundR 6 (heuristic_score (stage3_features clinical fibrosis previous) kpa)
          + 0.05) 0 0.99)
    ∧ (compute_stage3 cfg clinical fibrosis kpa src previous none ver).decomp_risk_12m
      = roundQ 6 (clampQ (0.74 *
          roundR 6 (heuristic_score (stage3_features clinical fibrosis previous) kpa)
          + (if 3 ≤ (stage3_features clinical fibrosis previous).stage_num
              then 0.06 else 0)) 0 0.99)
    ∧ (compute_stage3 cfg clinical fibrosis kpa src previous none ver).model_version
      = ver ++ "::heuristic" :=
  ⟨rfl, rfl, rfl, rfl⟩

theorem compute_stage3_artifact_eq (cfg : Settings) (clinical : Option ClinicalRow)
    (fibrosis : Option FibrosisRow) (kpa : ℚ) (src : String)
    (previous : Option Stage3Row) (out : ArtifactOutput) (aver ver : String) :
    (compute_stage3 cfg clinical fibrosis kpa src previous (some (out, aver))
        ver).composite_risk_score = roundR 6 (artifactP out)
    ∧ (compute_stage3 cfg clinical fibrosis kpa src previous (some (out, aver))
        ver).progression_risk_12m
      = roundR 6 (clampR (0.92 * artifactP out + 0.03) 0 0.99)
    ∧ (compute_stage3 cfg clinical fibrosis kpa src previous (some (out, aver))
        ver).decomp_risk_12m
      = roundR 6 (clampR (0.72 * artifactP out + 0.05) 0 0.99)
    ∧ (compute_stage3 cfg clinical fibrosis kpa src previous (some (out, aver))
        ver).model_version = aver :=
  ⟨rfl, rfl, rfl, rfl⟩

/-! ### Claim C4 -/

/-- Claim C4: with Stage 3 enabled, a fusion run with neither a clinical
assessment nor a fibrosis prediction fails with the precondition error, and a
run with some input but no stiffness measurement while the proxy fallback is
disabled fails with the no-stiffness error; both failures abort the run, so no
Stage3Assessment and no alert change is produced (the result is an error and
carries no assessment). -/
theorem stage3_precondition_spec (cfg : Settings) (clinical : Option ClinicalRow)
    (fibrosis : Option FibrosisRow) (stiffness : Option (ℚ × String))
    (previous : Option Stage3Row) (artifact : Option (ArtifactOutput × String))
    (ver patient_id assessment_id : String) (performed_by : Option String)
    (alerts : List RiskAlertRow) (hen : cfg.stage3_enabled = true) :
    (clinical = none → fibrosis = none →
      run_stage3_assessment cfg clinical fibrosis stiffness previous artifact ver
        patient_id assessment_id performed_by alerts = .error .noInputs)
    ∧ (¬(clinical = none ∧ fibrosis = none) → stiffness = none →
      cfg.stage3_stiffness_proxy_enabled = false →
      run_stage3_assessment cfg clinical fibrosis stiffness previous artifact ver
        patient_id assessment_id performed_by alerts = .error .noStiffness) := by
  constructor
  · intro hc hf
    rw [run_stage3_assessment.eq_def, if_neg (by simp [hen]), if_pos ⟨hc, hf⟩]
  · intro hcf hs hproxy
    rw [run_stage3_assessment.eq_def, if_neg (by simp [hen]), if_neg hcf, hs,
      hproxy]
    simp

/-- Witness for C4: a concrete enabled configuration with the proxy disabled,
run once with no inputs at all and once with only a clinical row and no
stiffness measurement. -/
theorem stage3_precondition_spec_witness :
    run_stage3_assessment ⟨true, false, 0.85, 0.5⟩ none none none none none
      "m" "p" "a" none [] = .error .noInputs
    ∧ run_stage3_assessment ⟨true, false, 0.85, 0.5⟩
        (some ⟨50, 28, 1.4, 0.6, 45, 40, 190, false⟩) none none none none
        "m" "p" "a" none [] = .error .noStiffness := by
  refine ⟨?_, ?_⟩
  · exact (stage3_precondition_spec ⟨true, false, 0.85, 0.5⟩ none none none none
      none "m" "p" "a" none [] rfl).1 rfl rfl
  · exact (stage3_precondition_spec ⟨true, false, 0.85, 0.5⟩
      (some ⟨50, 28, 1.4, 0.6, 45, 40, 190, false⟩) none none none none
      "m" "p" "a" none [] rfl).2 (by simp) rfl rfl

/-! ### Claim C9 -/

/-- Claim C9: the alert_score_threshold stored in the feature snapshot of a run
equals the operating threshold used by the alert upsert of the same run (both
are alert_threshold_for_ppv_target of the configured precision target), and
that function returns 0.78 for a target of at least 0.90, 0.70 for at least
0.85, and 0.62 otherwise. -/
theorem stage3_threshold_roundtrip_spec (cfg : Settings)
    (clinical : Option ClinicalRow) (fibrosis : Option FibrosisRow)
    (stiffness_kpa : ℚ) (src ver : String) (previous : Option Stage3Row)
    (artifact : Option (ArtifactOutput × String)) :
    (compute_stage3 cfg clinical fibrosis stiffness_kpa src previous artifact
        ver).feature_snapshot.alert_score_threshold
      = alert_threshold_for_ppv_target cfg.stage3_alert_ppv_target
    ∧ (∀ (a : AssessmentRow) (cb : Option String) (alerts : List RiskAlertRow),
        upsert_stage3_alerts cfg a cb alerts =
          upsert_alerts_with
            ((compute_stage3 cfg clinical fibrosis stiffness_kpa src previous
                artifact ver).feature_snapshot.alert_score_threshold)
            a cb alerts)
    ∧ (∀ t : ℚ, alert_threshold_for_ppv_target t =
        if 0.9 ≤ t then 0.78 else if 0.85 ≤ t then 0.7 else 0.62) :=
  ⟨rfl, fun _ _ _ => rfl, fun _ => rfl⟩

/-! ### Claim C3 -/

/-- Claim C3 (amended): over every input combination, progression and
decompensation risks always lie within [0, 0.99]; the composite lies within
[0, 0.99] on the heuristic path, but on the learned path it is only bounded by
[0, 1] (the predict output is clamped to [0, 1], a predict_proba probability —
assumed to lie in [0, 1] — is used unclamped), and the value 1 is attainable. -/
theorem stage3_scores_bounded (cfg : Settings) (clinical : Option ClinicalRow)
    (fibrosis : Option FibrosisRow) (kpa : ℚ) (src : String)
    (previous : Option Stage3Row) (artifact : Option (ArtifactOutput × String))
    (ver : String)
    (hart : ∀ p v, artifact = some (ArtifactOutput.proba p, v) → 0 ≤ p ∧ p ≤ 1) :
    (0 ≤ (compute_stage3 cfg clinical fibrosis kpa src previous artifact
        ver).composite_risk_score
      ∧ (compute_stage3 cfg clinical fibrosis kpa src previous artifact
        ver).composite_risk_score ≤ 1)
    ∧ (0 ≤ (compute_stage3 cfg clinical fibrosis kpa src previous artifact
        ver).progression_risk_12m
      ∧ (compute_stage3 cfg clinical fibrosis kpa src previous artifact
        ver).progression_risk_12m ≤ 0.99)
    ∧ (0 ≤ (compute_stage3 cfg clinical fibrosis kpa src previous artifact
        ver).decomp_risk_12m
      ∧ (compute_stage3 cfg clinical fibrosis kpa src previous artifact
        ver).decomp_risk_12m ≤ 0.99)
    ∧ (artifact = none →
      (compute_stage3 cfg clinical fibrosis kpa src previous artifact
        ver).composite_risk_score ≤ 0.99) := by
  match artifact with
  | none =>
    obtain ⟨hc, hp, hd, _hv⟩ :=
      compute_stage3_heuristic_eq cfg clinical fibrosis kpa src previous ver
    have hscore : (0 : ℝ) ≤ heuristic_score (stage3_features clinical fibrosis previous) kpa
        ∧ heuristic_score (stage3_features clinical fibrosis previous) kpa ≤ 0.99 :=
      ⟨le_clampR _ _ _, clampR_le (by norm_num)⟩
    have hcb : (0 : ℚ) ≤ (compute_stage3 cfg clinical fibrosis kpa src previous
        none ver).composite_risk_score
        ∧ (compute_stage3 cfg clinical fibrosis kpa src previous
          none ver).composite_risk_score ≤ 0.99 := by
      rw [hc]
      exact roundR6_bounds roundQ6_zero roundQ6_99
        (by exact_mod_cast hscore.1) (by exact_mod_cast hscore.2)
    refine ⟨⟨hcb.1, le_trans hcb.2 (by norm_num)⟩, ?_, ?_, fun _ => hcb.2⟩
    · rw [hp]
      exact roundQ6_bounds roundQ6_zero roundQ6_99 (le_clampQ _ _ _)
        (clampQ_le (by norm_num))
    · rw [hd]
      exact roundQ6_bounds roundQ6_zero roundQ6_99 (le_clampQ _ _ _)
        (clampQ_le (by norm_num))
  | some (out, aver) =>
    obtain ⟨hc, hp, hd, _hv⟩ :=
      compute_stage3_artifact_eq cfg clinical fibrosis kpa src previous out aver ver
    have hpb : (0 : ℝ) ≤ artifactP out ∧ artifactP out ≤ 1 := by
      match out with
      | .proba p => exact hart p aver rfl
      | .predictVal v =>
        exact ⟨le_clampR _ _ _, clampR_le (by norm_num)⟩
    refine ⟨?_, ?_, ?_, by intro h; exact absurd h (by simp)⟩
    · rw [hc]
      exact roundR6_bounds roundQ6_zero roundQ6_one
        (by exact_mod_cast hpb.1) (by exact_mod_cast hpb.2)
    · rw [hp]
      exact roundR6_bounds roundQ6_zero roundQ6_99
        (by exact_mod_cast le_clampR _ _ _)
        (by exact_mod_cast clampR_le (show (0:ℝ) ≤ 0.99 by norm_num))
    · rw [hd]
      exact roundR6_bounds roundQ6_zero roundQ6_99
        (by exact_mod_cast le_clampR _ _ _)
        (by exact_mod_cast clampR_le (show (0:ℝ) ≤ 0.99 by norm_num))

/-- Witness for C3 at a concrete heuristic-path input (no artifact, so the
probability hypothesis is vacuous). -/
theorem stage3_scores_bounded_witness :
    (0 ≤ (compute_stage3 ⟨true, true, 0.85, 0.5⟩
        (some ⟨50, 28, 1.4, 0.6, 45, 40, 190, false⟩) none 10 "MEASURED" none
        none "m").composite_risk_score
      ∧ (compute_stage3 ⟨true, true, 0.85, 0.5⟩
        (some ⟨50, 28, 1.4, 0.6, 45, 40, 190, false⟩) none 10 "MEASURED" none
        none "m").composite_risk_score ≤ 1)
    ∧ (0 ≤ (compute_stage3 ⟨true, true, 0.85, 0.5⟩
        (some ⟨50, 28, 1.4, 0.6, 45, 40, 190, false⟩) none 10 "MEASURED" none
        none "m").progression_risk_12m
      ∧ (compute_stage3 ⟨true, true, 0.85, 0.5⟩
        (some ⟨50, 28, 1.4, 0.6, 45, 40, 190, false⟩) none 10 "MEASURED" none
        none "m").progression_risk_12m ≤ 0.99) := by
  have h := stage3_scores_bounded ⟨true, true, 0.85, 0.5⟩
    (some ⟨50, 28, 1.4, 0.6, 45, 40, 190, false⟩) none 10 "MEASURED" none
    none "m" (by intro p v h; cases h)
  exact ⟨h.1, h.2.1⟩

/-- Counterexample to C3 as stated: a loadable fusion model whose
predict_proba returns probability 1 (a legitimate probability) makes the
composite risk score equal to 1, outside the claimed [0, 0.99]. -/
theorem stage3_composite_range_counterexample :
    (compute_stage3 ⟨true, true, 0.85, 0.5⟩
        (some ⟨50, 28, 1.4, 0.6, 45, 40, 190, false⟩) none 10 "MEASURED" none
        (some (ArtifactOutput.proba 1, "multimodal-stage3-risk:v1"))
        "m").composite_risk_score = 1
    ∧ ¬((compute_stage3 ⟨true, true, 0.85, 0.5⟩
        (some ⟨50, 28, 1.4, 0.6, 45, 40, 190, false⟩) none 10 "MEASURED" none
        (some (ArtifactOutput.proba 1, "multimodal-stage3-risk:v1"))
        "m").composite_risk_score ≤ 0.99) := by
  have hc := (compute_stage3_artifact_eq ⟨true, true, 0.85, 0.5⟩
    (some ⟨50, 28, 1.4, 0.6, 45, 40, 190, false⟩) none 10 "MEASURED" none
    (ArtifactOutput.proba 1) "multimodal-stage3-risk:v1" "m").1
  have h1 : (compute_stage3 ⟨true, true, 0.85, 0.5⟩
      (some ⟨50, 28, 1.4, 0.6, 45, 40, 190, false⟩) none 10 "MEASURED" none
      (some (ArtifactOutput.proba 1, "multimodal-stage3-risk:v1"))
      "m").composite_risk_score = 1 := by
    rw [hc, show artifactP (ArtifactOutput.proba 1) = ((1 : ℚ) : ℝ) by
      unfold artifactP; norm_num, roundR_ratCast, roundQ6_one]
  exact ⟨h1, by rw [h1]; norm_num⟩

/-! ### Claim C2 -/

/-- Claim C2 (amended): with no loadable fusion-model artifact, the composite
risk score equals the weighted component sum (weights 0.22, 0.14, 0.22, 0.23,
0.10, 0.05, 0.04) minus a 0.08 quality penalty applied exactly when the
upstream imaging quality metrics were marked invalid, clamped to [0, 0.99] and
then rounded to six decimal places (the rounding is the amendment); and the
risk tier is CRITICAL iff the composite is at least 0.82, else HIGH iff at
least 0.62, else MODERATE iff at least 0.35, else LOW. -/
theorem stage3_heuristic_composite_spec (cfg : Settings)
    (clinical : Option ClinicalRow) (fibrosis : Option FibrosisRow) (kpa : ℚ)
    (src : String) (previous : Option Stage3Row) (ver : String) :
    (compute_stage3 cfg clinical fibrosis kpa src previous none
        ver).composite_risk_score
      = roundR 6 (clampR
          (0.22 * (fib4_component (stage3_features clinical fibrosis previous) : ℝ)
            + 0.14 * (apri_component (stage3_features clinical fibrosis previous) : ℝ)
            + 0.22 * (stage_component (stage3_features clinical fibrosis previous) : ℝ)
            + 0.23 * (stiffness_component kpa : ℝ)
            + 0.10 * nfs_component (stage3_features clinical fibrosis previous)
            + 0.05 * (bard_component (stage3_features clinical fibrosis previous) : ℝ)
            + 0.04 * (delta_component (stage3_features clinical fibrosis previous) : ℝ)
            - (if (stage3_features clinical fibrosis previous).quality_valid
                then (0 : ℝ) else 0.08)) 0 0.99)
    ∧ ((stage3_features clinical fibrosis previous).quality_valid = false ↔
        ∃ f, fibrosis = some f ∧ f.quality_is_valid = some false)
    ∧ (∀ artifact,
        (compute_stage3 cfg clinical fibrosis kpa src previous artifact
            ver).risk_tier
          = risk_tier_from_score ((compute_stage3 cfg clinical fibrosis kpa src
              previous artifact ver).composite_risk_score))
    ∧ (∀ s : ℚ,
        (risk_tier_from_score s = .CRITICAL ↔ 0.82 ≤ s)
        ∧ (risk_tier_from_score s = .HIGH ↔ 0.62 ≤ s ∧ s < 0.82)
        ∧ (risk_tier_from_score s = .MODERATE ↔ 0.35 ≤ s ∧ s < 0.62)
        ∧ (risk_tier_from_score s = .LOW ↔ s < 0.35)) := by
  refine ⟨?_, ?_, fun _ => rfl, ?_⟩
  · rw [(compute_stage3_heuristic_eq cfg clinical fibrosis kpa src previous ver).1]
    unfold heuristic_score heuristic_sum
    rw [show ((quality_penalty (stage3_features clinical fibrosis previous) : ℚ) : ℝ)
        = (if (stage3_features clinical fibrosis previous).quality_valid
            then (0 : ℝ) else 0.08) by
      unfold quality_penalty; split <;> norm_num]
  · match fibrosis with
    | none => simp [stage3_features]
    | some f =>
      obtain ⟨ts, tp, qv⟩ := f
      match qv with
      | none => simp [stage3_features]
      | some b =>
        match b with
        | true => simp [stage3_features]
        | false => simp [stage3_features]
  · intro s
    unfold risk_tier_from_score
    split_ifs with h1 h2 h3
    · exact ⟨iff_of_true rfl h1,
        iff_of_false (by simp) (by rintro ⟨_, hb⟩; linarith),
        iff_of_false (by simp) (by rintro ⟨_, hb⟩; linarith),
        iff_of_false (by simp) (by intro hb; linarith)⟩
    · exact ⟨iff_of_false (by simp) h1,
        iff_of_true rfl ⟨h2, lt_of_not_ge h1⟩,
        iff_of_false (by simp) (by rintro ⟨_, hb⟩; linarith),
        iff_of_false (by simp) (by intro hb; linarith)⟩
    · exact ⟨iff_of_false (by simp) h1,
        iff_of_false (by simp) (by rintro ⟨ha, _⟩; exact h2 ha),
        iff_of_true rfl ⟨h3, lt_of_not_ge h2⟩,
        iff_of_false (by simp) (by intro hb; linarith)⟩
    · exact ⟨iff_of_false (by simp) h1,
        iff_of_false (by simp) (by rintro ⟨ha, _⟩; exact h2 ha),
        iff_of_false (by simp) (by rintro ⟨ha, _⟩; exact h3 ha),
        iff_of_true rfl (lt_of_not_ge h3)⟩

/-- Counterexample to C2 as stated: at a concrete heuristic-path input the
stored composite risk score is the six-decimal rounding 0.258877, while the
clamped weighted sum itself is 77663/300000 = 0.2588766..., so the two differ
(the claim omits the rounding). -/
theorem stage3_heuristic_composite_counterexample :
    ((compute_stage3 ⟨true, true, 0.85, 0.5⟩
        (some ⟨50, 28, 11/10, 7/20, 35, 35, 959/13, false⟩) none (31/3)
        "MEASURED" none none "m").composite_risk_score : ℝ)
      ≠ clampR
          (0.22 * (fib4_component (stage3_features
              (some ⟨50, 28, 11/10, 7/20, 35, 35, 959/13, false⟩) none none) : ℝ)
            + 0.14 * (apri_component (stage3_features
              (some ⟨50, 28, 11/10, 7/20, 35, 35, 959/13, false⟩) none none) : ℝ)
            + 0.22 * (stage_component (stage3_features
              (some ⟨50, 28, 11/10, 7/20, 35, 35, 959/13, false⟩) none none) : ℝ)
            + 0.23 * (stiffness_component (31/3) : ℝ)
            + 0.10 * nfs_component (stage3_features
              (some ⟨50, 28, 11/10, 7/20, 35, 35, 959/13, false⟩) none none)
            + 0.05 * (bard_component (stage3_features
              (some ⟨50, 28, 11/10, 7/20, 35, 35, 959/13, false⟩) none none) : ℝ)
            + 0.04 * (delta_component (stage3_features
              (some ⟨50, 28, 11/10, 7/20, 35, 35, 959/13, false⟩) none none) : ℝ)
            - (if (stage3_features
                (some ⟨50, 28, 11/10, 7/20, 35, 35, 959/13, false⟩) none
                none).quality_valid then (0 : ℝ) else 0.08)) 0 0.99 := by
  set F := stage3_features
    (some ⟨50, 28, 11/10, 7/20, 35, 35, 959/13, false⟩) none none with hFdef
  -- component values at this input
  have h1 : fib4_component F = 0 := by
    unfold fib4_component
    rw [show F.fib4 = 11/10 from rfl, show ((11 : ℚ)/10 - 1.1)/3.5 = 0 by norm_num]
    exact clampQ_eq_self le_rfl (by norm_num)
  have h2 : apri_component F = 0 := by
    unfold apri_component
    rw [show F.apri = 7/20 from rfl, show ((7 : ℚ)/20 - 0.35)/1.6 = 0 by norm_num]
    exact clampQ_eq_self le_rfl (by norm_num)
  have h3 : stage_component F = 861/2000 := by
    unfold stage_component
    rw [show F.stage_num = 1.5 from rfl, show F.stage_prob = 0.56 from rfl,
      show (1.5 : ℚ)/4 * 0.7 + 0.56 * 0.3 = 861/2000 by norm_num]
    exact clampQ_eq_self (by norm_num) (by norm_num)
  have h4 : stiffness_component (31/3) = 1/3 := by
    unfold stiffness_component
    rw [show ((31 : ℚ)/3 - 3)/22 = 1/3 by norm_num]
    exact clampQ_eq_self (by norm_num) (by norm_num)
  have hnfs : F.nfs_score = 0 := by
    have halb : clampQ (4.3 - 0.0025 * max ((35 : ℚ) - 35) 0) 2 5.5 = 43/10 := by
      rw [show max ((35 : ℚ) - 35) 0 = 0 by norm_num,
        show (4.3 : ℚ) - 0.0025 * 0 = 43/10 by norm_num]
      exact clampQ_eq_self (by norm_num) (by norm_num)
    show nfs_proxy 50 28 false 35 35 (959/13)
      (clampQ (4.3 - 0.0025 * max ((35 : ℚ) - 35) 0) 2 5.5) = 0
    rw [halb]
    unfold nfs_proxy
    rw [show max (35 : ℚ) 1e-4 = 35 from max_eq_left (by norm_num)]
    norm_num
  have h5 : nfs_component F = 1/2 := by
    unfold nfs_component
    rw [hnfs, show (((0 : ℚ) : ℝ))/2.5 = 0 by norm_num,
      show sigmoid 0 = 1/2 by unfold sigmoid; rw [neg_zero, Real.exp_zero]; norm_num]
    exact clampR_eq_self (by norm_num) (by norm_num)
  have hbard : F.bard = 3 := by
    show bard_score 28 35 35 false = 3
    unfold bard_score
    rw [show max (35 : ℚ) 1e-4 = 35 from max_eq_left (by norm_num)]
    norm_num
  have h6 : bard_component F = 3/4 := by
    unfold bard_component
    rw [hbard, show (((3 : ℤ) : ℚ))/4 = 3/4 by norm_num]
    exact clampQ_eq_self (by norm_num) (by norm_num)
  have h7 : delta_component F = 0 := by
    unfold delta_component
    rw [show F.previous_score = 0 from rfl, show max (0 : ℚ) 0 = 0 by norm_num]
    exact clampQ_eq_self le_rfl (by norm_num)
  have hqv : F.quality_valid = true := rfl
  -- the clamped weighted sum is exactly 77663/300000
  have hsum : 0.22 * ((fib4_component F : ℚ) : ℝ) + 0.14 * ((apri_component F : ℚ) : ℝ)
      + 0.22 * ((stage_component F : ℚ) : ℝ)
      + 0.23 * ((stiffness_component (31/3) : ℚ) : ℝ)
      + 0.10 * nfs_component F + 0.05 * ((bard_component F : ℚ) : ℝ)
      + 0.04 * ((delta_component F : ℚ) : ℝ)
      - (if F.quality_valid then (0 : ℝ) else 0.08)
      = ((77663/300000 : ℚ) : ℝ) := by
    rw [h1, h2, h3, h4, h5, h6, h7, hqv, if_pos rfl]
    push_cast
    norm_num
  have hclamp : clampR (0.22 * ((fib4_component F : ℚ) : ℝ)
      + 0.14 * ((apri_component F : ℚ) : ℝ)
      + 0.22 * ((stage_component F : ℚ) : ℝ)
      + 0.23 * ((stiffness_component (31/3) : ℚ) : ℝ)
      + 0.10 * nfs_component F + 0.05 * ((bard_component F : ℚ) : ℝ)
      + 0.04 * ((delta_component F : ℚ) : ℝ)
      - (if F.quality_valid then (0 : ℝ) else 0.08)) 0 0.99
      = ((77663/300000 : ℚ) : ℝ) := by
    rw [hsum]
    exact clampR_eq_self (by push_cast; norm_num) (by push_cast; norm_num)
  -- the stored composite is the rounding of that value
  have hcomposite : (compute_stage3 ⟨true, true, 0.85, 0.5⟩
      (some ⟨50, 28, 11/10, 7/20, 35, 35, 959/13, false⟩) none (31/3)
      "MEASURED" none none "m").composite_risk_score = 258877/1000000 := by
    rw [(compute_stage3_heuristic_eq ⟨true, true, 0.85, 0.5⟩
      (some ⟨50, 28, 11/10, 7/20, 35, 35, 959/13, false⟩) none (31/3)
      "MEASURED" none "m").1]
    have hscore : heuristic_score F (31/3) = ((77663/300000 : ℚ) : ℝ) := by
      unfold heuristic_score heuristic_sum
      rw [show ((quality_penalty F : ℚ) : ℝ) = (if F.quality_valid then (0 : ℝ)
          else 0.08) by unfold quality_penalty; split <;> norm_num]
      exact hclamp
    rw [hscore, roundR_ratCast]
    unfold roundQ
    rw [round_eq]
    norm_num
  rw [hcomposite, hclamp]
  intro h
  have : (258877/1000000 : ℚ) = 77663/300000 := by exact_mod_cast h
  norm_num at this

/-! ### Claim C1 — alert deduplication machinery -/

/-- Number of OPEN alerts of a given patient and type in the table. -/
def openCount (l : List RiskAlertRow) (pid t : String) : ℕ :=
  l.countP (isOpenFor pid t)

def rowFor (pid t : String) (r : RiskAlertRow) : Bool :=
  r.patient_id == pid && r.alert_type == t

/-- Number of alert rows (any status) of a given patient and type. -/
def rowCount (l : List RiskAlertRow) (pid t : String) : ℕ :=
  l.countP (rowFor pid t)

/-- The external user-driven close transition applied to the open alert(s) of
one patient and type (sets status to closed). -/
def closeAlerts (pid t : String) (l : List RiskAlertRow) : List RiskAlertRow :=
  l.map (fun r => if isOpenFor pid t r then { r with status := "closed" } else r)

theorem updateFirstOpen_none_iff (pid t : String) (f : RiskAlertRow → RiskAlertRow) :
    ∀ l : List RiskAlertRow,
      updateFirstOpen pid t f l = none ↔ openCount l pid t = 0 := by
  intro l
  induction l with
  | nil => simp [updateFirstOpen, openCount]
  | cons r rest ih =>
    by_cases h : isOpenFor pid t r
    · simp [updateFirstOpen, openCount, List.countP_cons, h]
    · simp only [updateFirstOpen, openCount, List.countP_cons, h,
        Bool.false_eq_true, if_neg, if_false, Option.map_eq_none', add_zero]
      rw [← openCount]
      exact ih

theorem updateFirstOpen_some_countP {pid t : String}
    {f : RiskAlertRow → RiskAlertRow} (p : RiskAlertRow → Bool)
    (hp : ∀ r, p (f r) = p r) :
    ∀ {l l' : List RiskAlertRow}, updateFirstOpen pid t f l = some l' →
      l'.countP p = l.countP p := by
  intro l
  induction l with
  | nil => intro l' h; exact absurd h (by simp [updateFirstOpen])
  | cons r rest ih =>
    intro l' h
    by_cases hr : isOpenFor pid t r
    · rw [updateFirstOpen, if_pos hr, Option.some_inj] at h
      subst h
      simp [List.countP_cons, hp]
    · rw [updateFirstOpen, if_neg hr, Option.map_eq_some'] at h
      obtain ⟨rest', hrest, hl⟩ := h
      subst hl
      simp [List.countP_cons, ih hrest]

theorem updateFirstOpen_some_mem {pid t : String}
    {f : RiskAlertRow → RiskAlertRow} :
    ∀ {l l' : List RiskAlertRow}, updateFirstOpen pid t f l = some l' →
      ∃ r, isOpenFor pid t r = true ∧ r ∈ l ∧ f r ∈ l' := by
  intro l
  induction l with
  | nil => intro l' h; exact absurd h (by simp [updateFirstOpen])
  | cons r rest ih =>
    intro l' h
    by_cases hr : isOpenFor pid t r
    · rw [updateFirstOpen, if_pos hr, Option.some_inj] at h
      subst h
      exact ⟨r, hr, List.mem_cons_self r rest, List.mem_cons_self _ _⟩
    · rw [updateFirstOpen, if_neg hr, Option.map_eq_some'] at h
      obtain ⟨rest', hrest, hl⟩ := h
      subst hl
      obtain ⟨r0, hr0, hmem, hfmem⟩ := ih hrest
      exact ⟨r0, hr0, List.mem_cons_of_mem r hmem, List.mem_cons_of_mem r hfmem⟩

theorem updateFirstOpen_mem_preserved {pid t : String}
    {f : RiskAlertRow → RiskAlertRow} :
    ∀ {l l' : List RiskAlertRow}, updateFirstOpen pid t f l = some l' →
      ∀ {r : RiskAlertRow}, r ∈ l → isOpenFor pid t r = false → r ∈ l' := by
  intro l
  induction l with
  | nil => intro l' h; exact absurd h (by simp [updateFirstOpen])
  | cons a rest ih =>
    intro l' h r hr hnot
    by_cases ha : isOpenFor pid t a
    · rw [updateFirstOpen, if_pos ha, Option.some_inj] at h
      subst h
      rcases List.mem_cons.1 hr with rfl | hmem
      · rw [ha] at hnot; cases hnot
      · exact List.mem_cons_of_mem _ hmem
    · rw [updateFirstOpen, if_neg ha, Option.map_eq_some'] at h
      obtain ⟨rest', hrest, hl⟩ := h
      subst hl
      rcases List.mem_cons.1 hr with rfl | hmem
      · exact List.mem_cons_self _ _
      · exact List.mem_cons_of_mem _ (ih hrest hmem hnot)

theorem isOpenFor_applyUpdate (q t' : String) (th : ℚ) (aid : String)
    (c : AlertCandidate) (r : RiskAlertRow) :
    isOpenFor q t' (applyUpdate th aid c r) = isOpenFor q t' r := by
  simp [isOpenFor, applyUpdate]

theorem rowFor_applyUpdate (q t' : String) (th : ℚ) (aid : String)
    (c : AlertCandidate) (r : RiskAlertRow) :
    rowFor q t' (applyUpdate th aid c r) = rowFor q t' r := by
  simp [rowFor, applyUpdate]

theorem openCount_append (l1 l2 : List RiskAlertRow) (pid t : String) :
    openCount (l1 ++ l2) pid t = openCount l1 pid t + openCount l2 pid t :=
  List.countP_append _ _ _

theorem rowCount_append (l1 l2 : List RiskAlertRow) (pid t : String) :
    rowCount (l1 ++ l2) pid t = rowCount l1 pid t + rowCount l2 pid t :=
  List.countP_append _ _ _

theorem upsertOne_openCount (th : ℚ) (aid pid : String) (cb : Option String)
    (c : AlertCandidate) (st : List RiskAlertRow × List RiskAlertRow)
    (q t' : String) :
    openCount (upsertOne th aid pid cb c st).1 q t' =
      openCount st.1 q t' +
        (if pid = q ∧ c.alert_type = t' ∧ openCount st.1 pid c.alert_type = 0
          then 1 else 0) := by
  unfold upsertOne
  cases hufo : updateFirstOpen pid c.alert_type (applyUpdate th aid c) st.1 with
  | none =>
    have h0 : openCount st.1 pid c.alert_type = 0 :=
      (updateFirstOpen_none_iff _ _ _ _).1 hufo
    show openCount (st.1 ++ [newAlertRow th aid pid cb c]) q t' = _
    rw [openCount_append]
    have hsingle : openCount [newAlertRow th aid pid cb c] q t' =
        if pid = q ∧ c.alert_type = t' then 1 else 0 := by
      unfold openCount
      simp only [List.countP_cons, List.countP_nil, zero_add]
      by_cases hq : pid = q <;> by_cases ht : c.alert_type = t' <;>
        simp [isOpenFor, newAlertRow, hq, ht]
    rw [hsingle]
    simp only [h0, eq_self_iff_true, and_true]
  | some l =>
    have h0 : openCount st.1 pid c.alert_type ≠ 0 := by
      intro h
      rw [← updateFirstOpen_none_iff pid c.alert_type (applyUpdate th aid c) st.1]
        at h
      rw [hufo] at h
      cases h
    show openCount l q t' = _
    rw [if_neg (by intro hcon; exact h0 hcon.2.2), add_zero]
    exact updateFirstOpen_some_countP (isOpenFor q t')
      (isOpenFor_applyUpdate q t' th aid c) hufo

theorem upsertOne_rowCount (th : ℚ) (aid pid : String) (cb : Option String)
    (c : AlertCandidate) (st : List RiskAlertRow × List RiskAlertRow)
    (q t' : String) :
    rowCount (upsertOne th aid pid cb c st).1 q t' =
      rowCount st.1 q t' +
        (if pid = q ∧ c.alert_type = t' ∧ openCount st.1 pid c.alert_type = 0
          then 1 else 0) := by
  unfold upsertOne
  cases hufo : updateFirstOpen pid c.alert_type (applyUpdate th aid c) st.1 with
  | none =>
    have h0 : openCount st.1 pid c.alert_type = 0 :=
      (updateFirstOpen_none_iff _ _ _ _).1 hufo
    show rowCount (st.1 ++ [newAlertRow th aid pid cb c]) q t' = _
    rw [rowCount_append]
    have hsingle : rowCount [newAlertRow th aid pid cb c] q t' =
        if pid = q ∧ c.alert_type = t' then 1 else 0 := by
      unfold rowCount
      simp only [List.countP_cons, List.countP_nil, zero_add]
      by_cases hq : pid = q <;> by_cases ht : c.alert_type = t' <;>
        simp [rowFor, newAlertRow, hq, ht]
    rw [hsingle]
    simp only [h0, eq_self_iff_true, and_true]
  | some l =>
    have h0 : openCount st.1 pid c.alert_type ≠ 0 := by
      intro h
      rw [← updateFirstOpen_none_iff pid c.alert_type (applyUpdate th aid c) st.1]
        at h
      rw [hufo] at h
      cases h
    show rowCount l q t' = _
    rw [if_neg (by intro hcon; exact h0 hcon.2.2), add_zero]
    exact updateFirstOpen_some_countP (rowFor q t')
      (rowFor_applyUpdate q t' th aid c) hufo

theorem upsertOne_mem_preserved (th : ℚ) (aid pid : String) (cb : Option String)
    (c : AlertCandidate) (st : List RiskAlertRow × List RiskAlertRow)
    {r : RiskAlertRow} (hr : r ∈ st.1)
    (hnot : isOpenFor pid c.alert_type r = false) :
    r ∈ (upsertOne th aid pid cb c st).1 := by
  unfold upsertOne
  cases hufo : updateFirstOpen pid c.alert_type (applyUpdate th aid c) st.1 with
  | none => exact List.mem_append_left _ hr
  | some l => exact updateFirstOpen_mem_preserved hufo hr hnot

/-- After processing one candidate, the state holds an open alert of that type
carrying the refreshed score, threshold, severity and assessment reference. -/
theorem upsertOne_mem_updated (th : ℚ) (aid pid : String) (cb : Option String)
    (c : AlertCandidate) (st : List RiskAlertRow × List RiskAlertRow) :
    ∃ r ∈ (upsertOne th aid pid cb c st).1,
      isOpenFor pid c.alert_type r = true ∧ r.score = roundQ 6 c.score
      ∧ r.threshold = th ∧ r.severity = c.severity
      ∧ r.stage3_assessment_id = some aid := by
  unfold upsertOne
  cases hufo : updateFirstOpen pid c.alert_type (applyUpdate th aid c) st.1 with
  | none =>
    refine ⟨newAlertRow th aid pid cb c,
      List.mem_append_right _ (List.mem_cons_self _ _), ?_, rfl, rfl, rfl, rfl⟩
    unfold isOpenFor newAlertRow
    simp
  | some l =>
    obtain ⟨r0, hr0, _, hfmem⟩ := updateFirstOpen_some_mem hufo
    refine ⟨applyUpdate th aid c r0, hfmem, ?_, rfl, rfl, rfl, rfl⟩
    rw [isOpenFor_applyUpdate]
    exact hr0

theorem isOpenFor_fields {pid t : String} {r : RiskAlertRow}
    (h : isOpenFor pid t r = true) :
    r.patient_id = pid ∧ r.alert_type = t ∧ r.status = "open" := by
  unfold isOpenFor at h
  simp only [Bool.and_eq_true, beq_iff_eq] at h
  exact ⟨h.1.1, h.1.2, h.2⟩

theorem upsert_with_openCount (th : ℚ) (a : AssessmentRow) (cb : Option String)
    (alerts : List RiskAlertRow) (q t' : String) :
    openCount (upsert_alerts_with th a cb alerts).1 q t' =
      openCount alerts q t' +
        (if a.patient_id = q ∧ (∃ c ∈ alert_candidates th a, c.alert_type = t')
            ∧ openCount alerts a.patient_id t' = 0 then 1 else 0) := by
  unfold upsert_alerts_with alert_candidates
  by_cases hA : th ≤ a.composite_risk_score ∧
      (a.risk_tier = .HIGH ∨ a.risk_tier = .CRITICAL) <;>
    by_cases hD : th + 0.05 ≤ a.decomp_risk_12m
  · rw [if_pos hA, if_pos hD]
    simp only [List.cons_append, List.nil_append, List.foldl_cons,
      List.foldl_nil, upsertOne_openCount, List.mem_cons,
      List.mem_singleton, List.not_mem_nil]
    by_cases hq : a.patient_id = q <;>
      by_cases htA : ("ADVANCED_FIBROSIS_RISK" : String) = t' <;>
        by_cases htD : ("DECOMPENSATION_RISK" : String) = t' <;>
          simp_all <;> omega
  · rw [if_pos hA, if_neg hD]
    simp only [List.append_nil, List.foldl_cons, List.foldl_nil,
      upsertOne_openCount, List.mem_singleton]
    by_cases hq : a.patient_id = q <;>
      by_cases htA : ("ADVANCED_FIBROSIS_RISK" : String) = t' <;>
        simp_all <;> omega
  · rw [if_neg hA, if_pos hD]
    simp only [List.nil_append, List.foldl_cons, List.foldl_nil,
      upsertOne_openCount, List.mem_singleton]
    by_cases hq : a.patient_id = q <;>
      by_cases htD : ("DECOMPENSATION_RISK" : String) = t' <;>
        simp_all <;> omega
  · rw [if_neg hA, if_neg hD]
    simp

theorem upsert_with_rowCount (th : ℚ) (a : AssessmentRow) (cb : Option String)
    (alerts : List RiskAlertRow) (q t' : String) :
    rowCount (upsert_alerts_with th a cb alerts).1 q t' =
      rowCount alerts q t' +
        (if a.patient_id = q ∧ (∃ c ∈ alert_candidates th a, c.alert_type = t')
            ∧ openCount alerts a.patient_id t' = 0 then 1 else 0) := by
  unfold upsert_alerts_with alert_candidates
  by_cases hA : th ≤ a.composite_risk_score ∧
      (a.risk_tier = .HIGH ∨ a.risk_tier = .CRITICAL) <;>
    by_cases hD : th + 0.05 ≤ a.decomp_risk_12m
  · rw [if_pos hA, if_pos hD]
    simp only [List.cons_append, List.nil_append, List.foldl_cons,
      List.foldl_nil, upsertOne_rowCount, upsertOne_openCount, List.mem_cons,
      List.mem_singleton, List.not_mem_nil]
    by_cases hq : a.patient_id = q <;>
      by_cases htA : ("ADVANCED_FIBROSIS_RISK" : String) = t' <;>
        by_cases htD : ("DECOMPENSATION_RISK" : String) = t' <;>
          simp_all <;> omega
  · rw [if_pos hA, if_neg hD]
    simp only [List.append_nil, List.foldl_cons, List.foldl_nil,
      upsertOne_rowCount, upsertOne_openCount, List.mem_singleton]
    by_cases hq : a.patient_id = q <;>
      by_cases htA : ("ADVANCED_FIBROSIS_RISK" : String) = t' <;>
        simp_all <;> omega
  · rw [if_neg hA, if_pos hD]
    simp only [List.nil_append, List.foldl_cons, List.foldl_nil,
      upsertOne_rowCount, upsertOne_openCount, List.mem_singleton]
    by_cases hq : a.patient_id = q <;>
      by_cases htD : ("DECOMPENSATION_RISK" : String) = t' <;>
        simp_all <;> omega
  · rw [if_neg hA, if_neg hD]
    simp

theorem upsert_with_mem (th : ℚ) (a : AssessmentRow) (cb : Option String)
    (alerts : List RiskAlertRow) (c : AlertCandidate)
    (hc : c ∈ alert_candidates th a) :
    ∃ r ∈ (upsert_alerts_with th a cb alerts).1,
      isOpenFor a.patient_id c.alert_type r = true ∧ r.score = roundQ 6 c.score
      ∧ r.threshold = th ∧ r.severity = c.severity
      ∧ r.stage3_assessment_id = some a.id := by
  unfold upsert_alerts_with
  unfold alert_candidates at hc ⊢
  by_cases hA : th ≤ a.composite_risk_score ∧
      (a.risk_tier = .HIGH ∨ a.risk_tier = .CRITICAL) <;>
    by_cases hD : th + 0.05 ≤ a.decomp_risk_12m
  · rw [if_pos hA, if_pos hD] at hc ⊢
    simp only [List.cons_append, List.nil_append, List.foldl_cons,
      List.foldl_nil]
    simp only [List.cons_append, List.nil_append, List.mem_cons,
      List.mem_singleton, List.not_mem_nil, or_false] at hc
    rcases hc with rfl | rfl
    · -- first candidate, then show it survives the second step
      obtain ⟨r, hrmem, hropen, hrs, hrth, hrsev, hrid⟩ :=
        upsertOne_mem_updated th a.id a.patient_id cb
          ⟨"ADVANCED_FIBROSIS_RISK",
            if a.risk_tier = .CRITICAL then "critical" else "high",
            a.composite_risk_score⟩ (alerts, [])
      refine ⟨r, ?_, hropen, hrs, hrth, hrsev, hrid⟩
      apply upsertOne_mem_preserved
      · exact hrmem
      · have htype := (isOpenFor_fields hropen).2.1
        unfold isOpenFor
        rw [htype]
        simp
    · exact upsertOne_mem_updated th a.id a.patient_id cb _ _
  · rw [if_pos hA, if_neg hD] at hc ⊢
    simp only [List.append_nil, List.foldl_cons, List.foldl_nil]
    simp only [List.append_nil, List.mem_singleton] at hc
    subst hc
    exact upsertOne_mem_updated th a.id a.patient_id cb _ _
  · rw [if_neg hA, if_pos hD] at hc ⊢
    simp only [List.nil_append, List.foldl_cons, List.foldl_nil]
    simp only [List.nil_append, List.mem_singleton] at hc
    subst hc
    exact upsertOne_mem_updated th a.id a.patient_id cb _ _
  · rw [if_neg hA, if_neg hD] at hc
    simp at hc

theorem closeAlerts_openCount_self (pid t : String) (l : List RiskAlertRow) :
    openCount (closeAlerts pid t l) pid t = 0 := by
  unfold closeAlerts openCount
  rw [List.countP_map, List.countP_eq_zero]
  intro r _
  by_cases h : isOpenFor pid t r
  · simp only [Function.comp, h, if_pos]
    unfold isOpenFor
    simp
  · simp only [Function.comp, h, Bool.false_eq_true, if_false, if_neg]
    simp [h]

theorem closeAlerts_rowCount (pid t : String) (l : List RiskAlertRow)
    (q t2 : String) : rowCount (closeAlerts pid t l) q t2 = rowCount l q t2 := by
  unfold closeAlerts rowCount
  rw [List.countP_map]
  apply List.countP_congr
  intro r _
  by_cases h : isOpenFor pid t r <;> simp [Function.comp, h, rowFor]

/-! ### Claim C1 -/

/-- Claim C1: the upsert preserves the at-most-one-open-alert invariant per
(patient, alert_type); a qualifying type with an existing open alert is
refreshed in place (score, threshold, severity, assessment reference) with no
new row, while a qualifying type with no open alert gets exactly one new open
row; non-qualifying types are untouched; running the engine twice yields
exactly one open alert per qualifying type with no extra row, and closing the
open alert before rerunning creates one new open row. -/
theorem alert_lifecycle_dedup_spec (cfg : Settings) (a : AssessmentRow)
    (cb : Option String) (alerts : List RiskAlertRow)
    (hinv : ∀ t, openCount alerts a.patient_id t ≤ 1) :
    (∀ t, openCount (upsert_stage3_alerts cfg a cb alerts).1 a.patient_id t ≤ 1)
    ∧ (∀ c ∈ alert_candidates
          (alert_threshold_for_ppv_target cfg.stage3_alert_ppv_target) a,
        openCount (upsert_stage3_alerts cfg a cb alerts).1 a.patient_id
            c.alert_type = 1
        ∧ rowCount (upsert_stage3_alerts cfg a cb alerts).1 a.patient_id
              c.alert_type
            = rowCount alerts a.patient_id c.alert_type
              + (if openCount alerts a.patient_id c.alert_type = 0 then 1 else 0)
        ∧ ∃ r ∈ (upsert_stage3_alerts cfg a cb alerts).1,
            isOpenFor a.patient_id c.alert_type r = true
            ∧ r.score = roundQ 6 c.score
            ∧ r.threshold =
                alert_threshold_for_ppv_target cfg.stage3_alert_ppv_target
            ∧ r.severity = c.severity
            ∧ r.stage3_assessment_id = some a.id)
    ∧ (∀ t, (¬∃ c ∈ alert_candidates
          (alert_threshold_for_ppv_target cfg.stage3_alert_ppv_target) a,
            c.alert_type = t) →
        openCount (upsert_stage3_alerts cfg a cb alerts).1 a.patient_id t
          = openCount alerts a.patient_id t
        ∧ rowCount (upsert_stage3_alerts cfg a cb alerts).1 a.patient_id t
          = rowCount alerts a.patient_id t)
    ∧ (∀ c ∈ alert_candidates
          (alert_threshold_for_ppv_target cfg.stage3_alert_ppv_target) a,
        openCount (upsert_stage3_alerts cfg a cb
            (upsert_stage3_alerts cfg a cb alerts).1).1 a.patient_id
            c.alert_type = 1
        ∧ rowCount (upsert_stage3_alerts cfg a cb
            (upsert_stage3_alerts cfg a cb alerts).1).1 a.patient_id
            c.alert_type
          = rowCount (upsert_stage3_alerts cfg a cb alerts).1 a.patient_id
              c.alert_type)
    ∧ (∀ c ∈ alert_candidates
          (alert_threshold_for_ppv_target cfg.stage3_alert_ppv_target) a,
        openCount (upsert_stage3_alerts cfg a cb
            (closeAlerts a.patient_id c.alert_type
              (upsert_stage3_alerts cfg a cb alerts).1)).1 a.patient_id
            c.alert_type = 1
        ∧ rowCount (upsert_stage3_alerts cfg a cb
            (closeAlerts a.patient_id c.alert_type
              (upsert_stage3_alerts cfg a cb alerts).1)).1 a.patient_id
            c.alert_type
          = rowCount (upsert_stage3_alerts cfg a cb alerts).1 a.patient_id
              c.alert_type + 1) := by
  have hopen : ∀ (x : List RiskAlertRow) (q t' : String),
      openCount (upsert_stage3_alerts cfg a cb x).1 q t' =
        openCount x q t' +
          (if a.patient_id = q ∧ (∃ c ∈ alert_candidates
              (alert_threshold_for_ppv_target cfg.stage3_alert_ppv_target) a,
                c.alert_type = t')
              ∧ openCount x a.patient_id t' = 0 then 1 else 0) :=
    fun x q t' => upsert_with_openCount _ a cb x q t'
  have hrow : ∀ (x : List RiskAlertRow) (q t' : String),
      rowCount (upsert_stage3_alerts cfg a cb x).1 q t' =
        rowCount x q t' +
          (if a.patient_id = q ∧ (∃ c ∈ alert_candidates
              (alert_threshold_for_ppv_target cfg.stage3_alert_ppv_target) a,
                c.alert_type = t')
              ∧ openCount x a.patient_id t' = 0 then 1 else 0) :=
    fun x q t' => upsert_with_rowCount _ a cb x q t'
  have hopen1 : ∀ c ∈ alert_candidates
      (alert_threshold_for_ppv_target cfg.stage3_alert_ppv_target) a,
      openCount (upsert_stage3_alerts cfg a cb alerts).1 a.patient_id
        c.alert_type = 1 := by
    intro c hc
    rw [hopen alerts a.patient_id c.alert_type]
    by_cases h0 : openCount alerts a.patient_id c.alert_type = 0
    · rw [h0, if_pos ⟨rfl, ⟨c, hc, rfl⟩, rfl⟩]
    · rw [if_neg (fun hcon => h0 hcon.2.2), add_zero]
      have := hinv c.alert_type
      omega
  refine ⟨?_, ?_, ?_, ?_, ?_⟩
  · intro t
    rw [hopen alerts a.patient_id t]
    split_ifs with h
    · rw [h.2.2]
    · have := hinv t
      omega
  · intro c hc
    refine ⟨hopen1 c hc, ?_, upsert_with_mem _ a cb alerts c hc⟩
    rw [hrow alerts a.patient_id c.alert_type]
    by_cases h0 : openCount alerts a.patient_id c.alert_type = 0
    · rw [if_pos ⟨rfl, ⟨c, hc, rfl⟩, h0⟩, if_pos h0]
    · rw [if_neg (fun hcon => h0 hcon.2.2), if_neg h0]
  · intro t hnot
    constructor
    · rw [hopen alerts a.patient_id t,
        if_neg (fun hcon => hnot hcon.2.1), add_zero]
    · rw [hrow alerts a.patient_id t,
        if_neg (fun hcon => hnot hcon.2.1), add_zero]
  · intro c hc
    have h1 := hopen1 c hc
    constructor
    · rw [hopen (upsert_stage3_alerts cfg a cb alerts).1 a.patient_id
        c.alert_type, h1,
        if_neg (fun hcon => absurd hcon.2.2 one_ne_zero), add_zero]
    · rw [hrow (upsert_stage3_alerts cfg a cb alerts).1 a.patient_id
        c.alert_type,
        if_neg (fun hcon => absurd (h1.symm.trans hcon.2.2) one_ne_zero),
        add_zero]
  · intro c hc
    have hcl0 : openCount (closeAlerts a.patient_id c.alert_type
        (upsert_stage3_alerts cfg a cb alerts).1) a.patient_id c.alert_type = 0 :=
      closeAlerts_openCount_self _ _ _
    constructor
    · rw [hopen (closeAlerts a.patient_id c.alert_type
        (upsert_stage3_alerts cfg a cb alerts).1) a.patient_id c.alert_type,
        hcl0, if_pos ⟨rfl, ⟨c, hc, rfl⟩, rfl⟩]
    · rw [hrow (closeAlerts a.patient_id c.alert_type
        (upsert_stage3_alerts cfg a cb alerts).1) a.patient_id c.alert_type,
        if_pos ⟨rfl, ⟨c, hc, rfl⟩, hcl0⟩,
        closeAlerts_rowCount]

/-- Witness for C1: precision target 0.85 (threshold 0.7), a CRITICAL
assessment with composite 0.8 and decomp risk 0.9, empty alert table; after
one run the patient has exactly one open ADVANCED_FIBROSIS_RISK alert row. -/
theorem alert_lifecycle_dedup_spec_witness :
    openCount (upsert_stage3_alerts ⟨true, true, 0.85, 0.5⟩
        ⟨"a1", "p1", 4/5, 9/10, .CRITICAL⟩ none []).1 "p1"
      "ADVANCED_FIBROSIS_RISK" = 1
    ∧ rowCount (upsert_stage3_alerts ⟨true, true, 0.85, 0.5⟩
        ⟨"a1", "p1", 4/5, 9/10, .CRITICAL⟩ none []).1 "p1"
      "ADVANCED_FIBROSIS_RISK" = 1 := by
  have hth : alert_threshold_for_ppv_target (0.85 : ℚ) = 0.7 := by
    unfold alert_threshold_for_ppv_target
    rw [if_neg (by norm_num), if_pos (by norm_num)]
  have hc : (⟨"ADVANCED_FIBROSIS_RISK", "critical", 4/5⟩ : AlertCandidate) ∈
      alert_candidates (alert_threshold_for_ppv_target (0.85 : ℚ))
        ⟨"a1", "p1", 4/5, 9/10, .CRITICAL⟩ := by
    rw [hth]
    unfold alert_candidates
    rw [if_pos ⟨by norm_num, Or.inr rfl⟩, if_pos (by norm_num)]
    simp
  have h := alert_lifecycle_dedup_spec ⟨true, true, 0.85, 0.5⟩
    ⟨"a1", "p1", 4/5, 9/10, .CRITICAL⟩ none []
    (fun t => by simp [openCount])
  obtain ⟨ho, hr, _⟩ := h.2.1 _ hc
  refine ⟨ho, ?_⟩
  rw [hr]
  simp [rowCount, openCount]

end Hepatica
